import Mathlib

set_option linter.unusedVariables false

/-!
Verification development for the stream pipeline and anime identity database of
the aiostreams repository.  TypeScript values are embedded shallowly: optional
(`undefined`/`null`) values become `Option`, JS `Map`s become association lists,
JS truthiness is made explicit through small helper functions, and mutation is
replaced by explicit state passing.
-/

/- ## JS-semantics helpers -/

/-- JS nullish coalescing `a ?? b` on optional values. -/
def jsNullish {α : Type} : Option α → Option α → Option α
  | some x, _ => some x
  | none, b => b

/-- JS truthiness of an optional string: `undefined`, `null` and the empty
string are falsy; every other string passes through. -/
def strTruthy : Option String → Option String
  | some s => if s = "" then none else some s
  | none => none

/-- JS truthiness of an optional natural number: `undefined`, `null` and `0`
are falsy; every other number passes through. -/
def natTruthy : Option Nat → Option Nat
  | some 0 => none
  | o => o

/-- ASCII lowercasing, mirroring `String.prototype.toLowerCase` on the ASCII
data that hashes and release-group names consist of. -/
def jsToLower (s : String) : String := ⟨s.data.map Char.toLower⟩

def isDigitChar (c : Char) : Bool := '0' ≤ c && c ≤ '9'

def digitVal (c : Char) : Nat := c.toNat - '0'.toNat

def digitsValAux (acc : Nat) : List Char → Nat
  | [] => acc
  | c :: rest => digitsValAux (acc * 10 + digitVal c) rest

/-- The maximal leading digit run of a character list. -/
def leadingDigits : List Char → List Char
  | [] => []
  | c :: rest => if isDigitChar c then c :: leadingDigits rest else []

/-- JS `parseInt` on a decimal string: the value of the maximal leading digit
run, `NaN` (modelled as `none`) when the string does not start with a digit.
Sign prefixes and whitespace trimming are not modelled; no value in this
development uses them. -/
def jsParseInt (s : String) : Option Nat :=
  match s.data with
  | [] => none
  | c :: _ => if isDigitChar c then some (digitsValAux 0 (leadingDigits s.data)) else none

/-- JS `Number()` of a string: the numeric value when the whole string is a
digit run, `NaN` (modelled as `none`) otherwise.  The empty string (which JS
converts to `0`) never reaches this helper because every call site first
checks truthiness. -/
def jsNumberNat (s : String) : Option Nat :=
  if s.data ≠ [] && s.data.all isDigitChar then some (digitsValAux 0 s.data) else none

def digitChar (n : Nat) : Char := Char.ofNat ('0'.toNat + n)

/-- Fuelled digit rendering; `fuel` bounds the number of division steps so the
definition is structural and evaluates inside the kernel. -/
def natDigitsCore : Nat → Nat → List Char → List Char
  | 0, _, acc => acc
  | fuel + 1, n, acc =>
      if n = 0 then acc else natDigitsCore fuel (n / 10) (digitChar (n % 10) :: acc)

/-- Decimal rendering of a natural number, mirroring JS `Number.prototype.toString`. -/
def natToString (n : Nat) : String :=
  if n = 0 then "0" else ⟨natDigitsCore (n + 1) n []⟩

/-- Association-list lookup, modelling `Map.prototype.get`. -/
def alookup {α β : Type} [DecidableEq α] : List (α × β) → α → Option β
  | [], _ => none
  | (k, v) :: rest, key => if k = key then some v else alookup rest key

/-- Association-list insertion, modelling `Map.prototype.set`: an existing key
keeps its position and gets the new value, a new key is appended. -/
def aset {α β : Type} [DecidableEq α] : List (α × β) → α → β → List (α × β)
  | [], k, v => [(k, v)]
  | (k0, v0) :: rest, k, v =>
      if k0 = k then (k, v) :: rest else (k0, v0) :: aset rest k v

/- ## Stream records (ParsedStream, projected to the fields the pipeline
precompute stages read and write) -/

structure SeaDexTag where
  isBest : Bool
  isSeadex : Bool
deriving DecidableEq

/-- Result of `getSeaDexInfoHashes`; the JS `Set`s are modelled as lists and
`Set.prototype.has` as list membership. -/
structure SeaDexResult where
  bestHashes : List String
  allHashes : List String
  bestGroups : List String
  allGroups : List String
deriving DecidableEq

/-- A `ParsedStream`, projected to the fields the precompute stages touch:
`id`, `torrent?.infoHash`, `parsedFile?.releaseGroup`, and the mutable
annotations `seadex`, `streamExpressionMatched`, `streamExpressionScore`. -/
structure PStream where
  id : String
  infoHash : Option String
  releaseGroup : Option String
  seadex : Option SeaDexTag
  streamExpressionMatched : Option Nat
  streamExpressionScore : Option Int
deriving DecidableEq

/- ## SeaDex precompute (StreamPrecomputer.precomputeSeaDexFromResult) -/

/-- `stream.torrent?.infoHash?.toLowerCase()` followed by the `if (infoHash)`
truthiness check of the first pass. -/
def truthyInfoHash (s : PStream) : Option String :=
  strTruthy (s.infoHash.map jsToLower)

/-- The first pass of `precomputeSeaDexFromResult` on one stream: hash-based
tagging. -/
def tagStreamByHash (res : SeaDexResult) (s : PStream) : PStream :=
  match truthyInfoHash s with
  | some h =>
      if res.allHashes.contains h then
        { s with seadex := some { isBest := res.bestHashes.contains h, isSeadex := true } }
      else s
  | none => s

/-- Whether the first pass sets `anyHashMatched` for this stream. -/
def hashMatches (res : SeaDexResult) (s : PStream) : Bool :=
  match truthyInfoHash s with
  | some h => res.allHashes.contains h
  | none => false

/-- The second pass of `precomputeSeaDexFromResult` on one stream:
release-group fallback, skipping already tagged streams. -/
def tagStreamByGroup (res : SeaDexResult) (s : PStream) : PStream :=
  if s.seadex.isSome then s
  else
    match strTruthy (s.releaseGroup.map jsToLower) with
    | some g =>
        let isBestGroup := res.bestGroups.contains g
        let isSeadexGroup := res.allGroups.contains g
        if isBestGroup || isSeadexGroup then
          { s with seadex := some { isBest := isBestGroup, isSeadex := true } }
        else s
    | none => s

/-- The early-return guard of `precomputeSeaDexFromResult`: all four sets empty. -/
def seaDexResultEmpty (res : SeaDexResult) : Bool :=
  res.bestHashes.isEmpty && res.allHashes.isEmpty &&
    res.bestGroups.isEmpty && res.allGroups.isEmpty

/-- `StreamPrecomputer.precomputeSeaDexFromResult`: first pass tags by
info-hash; the release-group fallback pass runs only when no hash matched. -/
def precomputeSeaDexFromResult (streams : List PStream) (res : SeaDexResult) :
    List PStream :=
  if seaDexResultEmpty res then streams
  else
    let tagged := streams.map (tagStreamByHash res)
    if streams.any (hashMatches res) then tagged
    else tagged.map (tagStreamByGroup res)

/-- `StreamPrecomputer.precomputeSeaDexOnly`: guarded by `context.isAnime` and
the truthiness of `userData.enableSeadex`; `context.getSeaDex()` is passed in
as the already-awaited optional result. -/
def precomputeSeaDexOnly (isAnime : Bool) (enableSeadex : Option Bool)
    (seadexResult : Option SeaDexResult) (streams : List PStream) : List PStream :=
  if !isAnime || !(enableSeadex.getD false) then streams
  else
    match seadexResult with
    | none => streams
    | some res => precomputeSeaDexFromResult streams res

/- ## Preferred and ranked stream-expression precompute -/

/-- Modelled from the spec: `StreamSelector.select` (parser/streamExpression.js
is not among the provided sources) returns the subset of the given streams
satisfying the expression, so expressions are modelled as per-stream boolean
predicates and selection as `filter`. -/
def selectStreams (e : PStream → Bool) (streams : List PStream) : List PStream :=
  streams.filter e

/-- The claim loop of `precomputePreferredMatches`: walk the preferred
expressions in priority order, let each select among the streams not yet
claimed, and record the claiming index per stream id. -/
def claimFold (streams : List PStream) : Nat → (String → Option Nat) →
    List (PStream → Bool) → (String → Option Nat)
  | _, acc, [] => acc
  | i, acc, e :: rest =>
      let availableStreams := streams.filter fun s => (acc s.id).isNone
      let selectedStreams := selectStreams e availableStreams
      let acc2 := fun sid =>
        if selectedStreams.any fun s => s.id == sid then some i else acc sid
      claimFold streams (i + 1) acc2 rest

/-- The stream-expression stage of `precomputePreferredMatches` (the keyword
and regex stages write disjoint fields and are omitted): assign
`streamExpressionMatched` from the claim map, `undefined` when unclaimed. -/
def precomputeStreamExpressionMatches (exprs : List (PStream → Bool))
    (streams : List PStream) : List PStream :=
  if exprs.isEmpty then streams
  else
    let assignment := claimFold streams 0 (fun _ => none) exprs
    streams.map fun s => { s with streamExpressionMatched := assignment s.id }

/-- The accumulation loop of `precomputeRankedStreamExpressions`: each entry
selects among all streams and adds its score to the running total
(`null ?? 0` starts the total at 0 the first time a stream is touched). -/
def scoreFold (streams : List PStream) : (String → Option Int) →
    List ((PStream → Bool) × Int) → (String → Option Int)
  | acc, [] => acc
  | acc, (e, sc) :: rest =>
      let selectedStreams := selectStreams e streams
      let acc2 := fun sid =>
        if selectedStreams.any fun s => s.id == sid then
          some ((acc sid).getD 0 + sc)
        else acc sid
      scoreFold streams acc2 rest

/-- `StreamPrecomputer.precomputeRankedStreamExpressions`: scores start as
`null` ("not evaluated"), accumulate additively, and are written back as
`streamExpressionScore` (`null ?? undefined` becomes `undefined`). -/
def precomputeRankedStreamExpressions (entries : List ((PStream → Bool) × Int))
    (streams : List PStream) : List PStream :=
  if entries.isEmpty || streams.isEmpty then streams
  else
    let scores := scoreFold streams (fun _ => none) entries
    streams.map fun s => { s with streamExpressionScore := scores s.id }

/-- The lowest index of an expression selecting the stream (`undefined` when
none does); the characterisation claim C2 states for the claim loop. -/
def lowestMatchIdx : List (PStream → Bool) → PStream → Option Nat
  | [], _ => none
  | e :: rest, s => if e s then some 0 else (lowestMatchIdx rest s).map (· + 1)

/-- The total score claim C3 states: the sum of the scores of the entries
whose expression selects the stream. -/
def matchedScoreSum (entries : List ((PStream → Bool) × Int)) (s : PStream) : Int :=
  ((entries.filter fun p => p.1 s).map Prod.snd).sum

/-- Whether at least one ranked entry selects the stream. -/
def anyEntryMatches (entries : List ((PStream → Bool) × Int)) (s : PStream) : Bool :=
  entries.any fun p => p.1 s

/- ## Anime identity database: data model -/

inductive IdValue where
  | num (n : Nat)
  | str (s : String)
deriving DecidableEq

/-- JS truthiness of an optional id value (`0` and `''` are falsy). -/
def idValueTruthy : Option IdValue → Option IdValue
  | some (.num 0) => none
  | some (.str "") => none
  | o => o

/-- `value.toString()` on an id value. -/
def IdValue.toKeyString : IdValue → String
  | .num n => natToString n
  | .str s => s

/-- `Number(value)` on an id value (`NaN` modelled as `none`). -/
def IdValue.toNumKey : IdValue → Option Nat
  | .num n => some n
  | .str s => jsNumberNat s

inductive IdType where
  | animePlanetId | animecountdownId | anidbId | anilistId | anisearchId
  | imdbId | kitsuId | livechartId | malId | notifyMoeId | simklId
  | themoviedbId | thetvdbId | traktId
deriving DecidableEq

inductive AnimeType where
  | TV | SPECIAL | OVA | MOVIE | ONA | UNKNOWN
deriving DecidableEq

inductive AnimeSeason where
  | WINTER | SPRING | SUMMER | FALL | UNDEFINED
deriving DecidableEq

structure MappingSeason where
  tvdb : Option Nat
  tmdb : Option Nat
deriving DecidableEq

/-- A cross-reference `MappingEntry` from the Fribb corpus. -/
structure MappingEntry where
  animePlanetId : Option IdValue
  animecountdownId : Option Nat
  anidbId : Option Nat
  anilistId : Option Nat
  anisearchId : Option Nat
  imdbId : Option String
  kitsuId : Option Nat
  livechartId : Option Nat
  malId : Option Nat
  notifyMoeId : Option String
  simklId : Option Nat
  themoviedbId : Option Nat
  thetvdbId : Option Nat
  traktId : Option Nat
  type : AnimeType
  season : Option MappingSeason
deriving DecidableEq

/-- `Object.entries` over the id fields of a mapping entry, in the declaration
order of `validateMappingEntry`'s object literal.  The trailing `type` and
`season` entries are omitted: their keys are not id types, so the manami index
lookups on them always miss and the loops skip them. -/
def MappingEntry.idEntries (m : MappingEntry) : List (IdType × Option IdValue) :=
  [(.animePlanetId, m.animePlanetId),
   (.animecountdownId, m.animecountdownId.map .num),
   (.anidbId, m.anidbId.map .num),
   (.anilistId, m.anilistId.map .num),
   (.anisearchId, m.anisearchId.map .num),
   (.imdbId, m.imdbId.map .str),
   (.kitsuId, m.kitsuId.map .num),
   (.livechartId, m.livechartId.map .num),
   (.malId, m.malId.map .num),
   (.notifyMoeId, m.notifyMoeId.map .str),
   (.simklId, m.simklId.map .num),
   (.themoviedbId, m.themoviedbId.map .num),
   (.thetvdbId, m.thetvdbId.map .num),
   (.traktId, m.traktId.map .num)]

/-- A `KitsuEntry` from the Kitsu-IMDB corpus. -/
structure KitsuEntry where
  fanartLogoId : Option Nat
  tvdbId : Option Nat
  imdbId : Option String
  title : Option String
  fromSeason : Option Nat
  fromEpisode : Option Nat
  nonImdbEpisodes : Option (List Nat)
deriving DecidableEq

/-- `defaulttvdbseason` from the anime-list XML: a number or `'a'` (absolute). -/
inductive DefaultTvdbSeason where
  | num (n : Nat)
  | absolute
deriving DecidableEq

structure AnimeListMapping where
  anidbSeason : Nat
  tvdbSeason : Option Nat
  tmdbSeasonM : Option Nat
  startEp : Option Nat
  endEp : Option Nat
  offset : Option Nat
  episodes : Option String
deriving DecidableEq

/-- An `AnimeListEntry` from the anime-list XML (`startEp`/`endEp` model the
source's `start`/`end` fields). -/
structure AnimeListEntry where
  anidbId : Nat
  tvdbId : Option Nat
  defaultTvdbSeason : Option DefaultTvdbSeason
  episodeOffset : Option Nat
  tmdbTv : Option Nat
  tmdbSeason : Option Nat
  tmdbOffset : Option Nat
  tmdbId : Option Nat
  imdbId : Option String
  mappings : Option (List AnimeListMapping)
deriving DecidableEq

structure AnitraktSeasonExternals where
  tvdb : Option Nat
  tmdb : Option Nat
deriving DecidableEq

structure AnitraktSeason where
  id : Nat
  number : Nat
  externals : Option AnitraktSeasonExternals
deriving DecidableEq

structure AnitraktTvTrakt where
  title : String
  id : Nat
  slug : String
  isSplitCour : Bool
  season : Option AnitraktSeason
deriving DecidableEq

structure AnitraktExternals where
  tvdb : Option Nat
  tmdb : Option Nat
  imdb : Option String
deriving DecidableEq

structure ExtendedAnitraktTvEntry where
  malId : Nat
  malTitle : String
  trakt : AnitraktTvTrakt
  releaseYear : Nat
  externals : Option AnitraktExternals
deriving DecidableEq

structure AnitraktMovieTrakt where
  title : String
  id : Nat
  slug : String
deriving DecidableEq

structure ExtendedAnitraktMovieEntry where
  malId : Nat
  malTitle : String
  trakt : AnitraktMovieTrakt
  releaseYear : Nat
  externals : Option AnitraktExternals
deriving DecidableEq

structure AnimeSeasonInfo where
  season : AnimeSeason
  year : Option Nat
deriving DecidableEq

/-- A `MinimisedManamiEntry` (title, anime season, synonyms). -/
structure MinimisedManamiEntry where
  title : String
  animeSeason : AnimeSeasonInfo
  synonyms : List String
deriving DecidableEq

structure ImdbBlock where
  seasonNumber : Option Nat
  fromEpisode : Option Nat
  nonImdbEpisodes : Option (List Nat)
  title : Option String
deriving DecidableEq

structure SeasonBlock where
  seasonNumber : Option Nat
  seasonId : Option Nat
  fromEpisode : Option Nat
deriving DecidableEq

structure TraktBlock where
  title : String
  slug : String
  isSplitCour : Option Bool
  seasonId : Option Nat
  seasonNumber : Option Nat
deriving DecidableEq

/-- `combinedMappings` with `type` and `season` destructured away. -/
structure FinalMappings where
  animePlanetId : Option IdValue
  animecountdownId : Option Nat
  anidbId : Option Nat
  anilistId : Option Nat
  anisearchId : Option Nat
  imdbId : Option String
  kitsuId : Option Nat
  livechartId : Option Nat
  malId : Option Nat
  notifyMoeId : Option String
  simklId : Option Nat
  themoviedbId : Option Nat
  thetvdbId : Option Nat
  traktId : Option Nat
deriving DecidableEq

/-- The derived `AnimeEntry` built by `buildAnimeEntry`; `fanart` is the
optional `logoId`. -/
structure AnimeEntry where
  mappings : FinalMappings
  type : AnimeType
  imdb : Option ImdbBlock
  fanart : Option Nat
  trakt : Option TraktBlock
  tmdb : SeasonBlock
  tvdb : SeasonBlock
  title : Option String
  animeSeason : Option AnimeSeasonInfo
  synonyms : Option (List String)
  episodeMappings : Option (List AnimeListMapping)
deriving DecidableEq

/- ## AnimeDatabase.buildAnimeEntry -/

/-- The `imdbId` layering chain of `combinedMappings` in `buildAnimeEntry`. -/
def combinedImdbId (mappings : Option MappingEntry) (kitsuEntry : Option KitsuEntry)
    (tvAnitraktEntry : Option ExtendedAnitraktTvEntry)
    (movieAnitraktEntry : Option ExtendedAnitraktMovieEntry)
    (animeListEntry : Option AnimeListEntry) : Option String :=
  jsNullish (mappings.bind MappingEntry.imdbId)
    (jsNullish (animeListEntry.bind AnimeListEntry.imdbId)
      (jsNullish (kitsuEntry.bind KitsuEntry.imdbId)
        (jsNullish (movieAnitraktEntry.bind fun e => e.externals.bind AnitraktExternals.imdb)
          (tvAnitraktEntry.bind fun e => e.externals.bind AnitraktExternals.imdb))))

/-- The `themoviedbId` layering chain of `combinedMappings`. -/
def combinedTmdbId (mappings : Option MappingEntry)
    (tvAnitraktEntry : Option ExtendedAnitraktTvEntry)
    (movieAnitraktEntry : Option ExtendedAnitraktMovieEntry)
    (animeListEntry : Option AnimeListEntry) : Option Nat :=
  jsNullish (mappings.bind MappingEntry.themoviedbId)
    (jsNullish (animeListEntry.bind AnimeListEntry.tmdbId)
      (jsNullish (animeListEntry.bind AnimeListEntry.tmdbTv)
        (jsNullish (movieAnitraktEntry.bind fun e => e.externals.bind AnitraktExternals.tmdb)
          (tvAnitraktEntry.bind fun e => e.externals.bind AnitraktExternals.tmdb))))

/-- The `thetvdbId` layering chain of `combinedMappings`. -/
def combinedTvdbId (mappings : Option MappingEntry) (kitsuEntry : Option KitsuEntry)
    (tvAnitraktEntry : Option ExtendedAnitraktTvEntry)
    (animeListEntry : Option AnimeListEntry) : Option Nat :=
  jsNullish (animeListEntry.bind AnimeListEntry.tvdbId)
    (jsNullish (kitsuEntry.bind KitsuEntry.tvdbId)
      (jsNullish (mappings.bind MappingEntry.thetvdbId)
        (tvAnitraktEntry.bind fun e => e.externals.bind AnitraktExternals.tvdb)))

/-- The `traktId` layering chain of `combinedMappings`. -/
def combinedTraktId (mappings : Option MappingEntry)
    (tvAnitraktEntry : Option ExtendedAnitraktTvEntry)
    (movieAnitraktEntry : Option ExtendedAnitraktMovieEntry) : Option Nat :=
  jsNullish (mappings.bind MappingEntry.traktId)
    (jsNullish (tvAnitraktEntry.map fun e => e.trakt.id)
      (movieAnitraktEntry.map fun e => e.trakt.id))

/-- `combinedMappings` with `type` and `season` destructured away
(`finalMappings` in the source). -/
def buildFinalMappings (mappings : Option MappingEntry)
    (kitsuEntry : Option KitsuEntry) (tvAnitraktEntry : Option ExtendedAnitraktTvEntry)
    (movieAnitraktEntry : Option ExtendedAnitraktMovieEntry)
    (animeListEntry : Option AnimeListEntry) : FinalMappings where
  animePlanetId := mappings.bind MappingEntry.animePlanetId
  animecountdownId := mappings.bind MappingEntry.animecountdownId
  anidbId := mappings.bind MappingEntry.anidbId
  anilistId := mappings.bind MappingEntry.anilistId
  anisearchId := mappings.bind MappingEntry.anisearchId
  imdbId := combinedImdbId mappings kitsuEntry tvAnitraktEntry movieAnitraktEntry animeListEntry
  kitsuId := mappings.bind MappingEntry.kitsuId
  livechartId := mappings.bind MappingEntry.livechartId
  malId := mappings.bind MappingEntry.malId
  notifyMoeId := mappings.bind MappingEntry.notifyMoeId
  simklId := mappings.bind MappingEntry.simklId
  themoviedbId := combinedTmdbId mappings tvAnitraktEntry movieAnitraktEntry animeListEntry
  thetvdbId := combinedTvdbId mappings kitsuEntry tvAnitraktEntry animeListEntry
  traktId := combinedTraktId mappings tvAnitraktEntry movieAnitraktEntry

/-- The TVDB season number resolution of `buildAnimeEntry` (`'a'` maps to null). -/
def tvdbSeasonNumberOf (mappings : Option MappingEntry)
    (animeListEntry : Option AnimeListEntry) : Option Nat :=
  jsNullish ((mappings.bind MappingEntry.season).bind MappingSeason.tvdb)
    (match animeListEntry.bind AnimeListEntry.defaultTvdbSeason with
     | some .absolute => none
     | some (.num n) => some n
     | none => none)

/-- The TMDB season number resolution of `buildAnimeEntry`. -/
def tmdbSeasonNumberOf (mappings : Option MappingEntry)
    (animeListEntry : Option AnimeListEntry) : Option Nat :=
  jsNullish ((mappings.bind MappingEntry.season).bind MappingSeason.tmdb)
    (animeListEntry.bind AnimeListEntry.tmdbSeason)

/-- The `trakt` block of `buildAnimeEntry`: TV entry preferred over movie entry. -/
def traktBlockOf (tvAnitraktEntry : Option ExtendedAnitraktTvEntry)
    (movieAnitraktEntry : Option ExtendedAnitraktMovieEntry) : Option TraktBlock :=
  match tvAnitraktEntry with
  | some tv =>
      some { title := tv.trakt.title, slug := tv.trakt.slug
             isSplitCour := some tv.trakt.isSplitCour
             seasonId := tv.trakt.season.map AnitraktSeason.id
             seasonNumber := tv.trakt.season.map AnitraktSeason.number }
  | none =>
      match movieAnitraktEntry with
      | some mv =>
          some { title := mv.trakt.title, slug := mv.trakt.slug
                 isSplitCour := none, seasonId := none, seasonNumber := none }
      | none => none

/-- The trakt season externals consulted for `seasonId` fields. -/
def traktExternalSeasonInfoOf (tvAnitraktEntry : Option ExtendedAnitraktTvEntry) :
    Option AnitraktSeasonExternals :=
  (tvAnitraktEntry.bind fun e => e.trakt.season).bind AnitraktSeason.externals

/-- `AnimeDatabase.buildAnimeEntry`, layering the co-indexed records into the
derived `AnimeEntry` with the source's nullish-coalescing chains. -/
def buildAnimeEntry (mappings : Option MappingEntry)
    (details : Option MinimisedManamiEntry) (kitsuEntry : Option KitsuEntry)
    (tvAnitraktEntry : Option ExtendedAnitraktTvEntry)
    (movieAnitraktEntry : Option ExtendedAnitraktMovieEntry)
    (animeListEntry : Option AnimeListEntry) : AnimeEntry where
  mappings :=
    buildFinalMappings mappings kitsuEntry tvAnitraktEntry movieAnitraktEntry animeListEntry
  type := (mappings.map MappingEntry.type).getD AnimeType.UNKNOWN
  imdb := kitsuEntry.map fun k =>
    { seasonNumber := k.fromSeason, fromEpisode := k.fromEpisode
      nonImdbEpisodes := k.nonImdbEpisodes, title := k.title }
  fanart := natTruthy (kitsuEntry.bind KitsuEntry.fanartLogoId)
  trakt := traktBlockOf tvAnitraktEntry movieAnitraktEntry
  tmdb :=
    { seasonNumber := tmdbSeasonNumberOf mappings animeListEntry
      seasonId := (traktExternalSeasonInfoOf tvAnitraktEntry).bind AnitraktSeasonExternals.tmdb
      fromEpisode := (animeListEntry.bind AnimeListEntry.tmdbOffset).map (· + 1) }
  tvdb :=
    { seasonNumber := tvdbSeasonNumberOf mappings animeListEntry
      seasonId := (traktExternalSeasonInfoOf tvAnitraktEntry).bind AnitraktSeasonExternals.tvdb
      fromEpisode := (animeListEntry.bind AnimeListEntry.episodeOffset).map (· + 1) }
  title := details.map MinimisedManamiEntry.title
  animeSeason := details.map MinimisedManamiEntry.animeSeason
  synonyms := details.map MinimisedManamiEntry.synonyms
  episodeMappings := animeListEntry.bind AnimeListEntry.mappings

/- ## AnimeDatabase.filterMappingsBySeasonType -/

/-- The per-entry keep predicate of `filterMappingsBySeasonType` as coded:
UNKNOWN always kept, MOVIE for undefined season, SPECIAL/OVA/ONA for season 0,
TV otherwise. -/
def seasonTypeKeep (season : Option Nat) (entry : MappingEntry) : Bool :=
  if entry.type == AnimeType.UNKNOWN then true
  else
    match season with
    | none => entry.type == AnimeType.MOVIE
    | some 0 =>
        entry.type == AnimeType.SPECIAL || entry.type == AnimeType.OVA ||
          entry.type == AnimeType.ONA
    | some _ => entry.type == AnimeType.TV

/-- `AnimeDatabase.filterMappingsBySeasonType` on a present mappings list:
apply the season-type filter and fall back to the unfiltered list when the
filter empties it. -/
def filterMappingsBySeasonType (mappingsList : List MappingEntry)
    (season : Option Nat) : List MappingEntry :=
  let seasonFiltered := mappingsList.filter (seasonTypeKeep season)
  if seasonFiltered.length > 0 then seasonFiltered else mappingsList

/-- The keep predicate exactly as claim C4 words it, for comparison with the
code's predicate: UNKNOWN-typed entries always; MOVIE entries when season is
undefined; SPECIAL, OVA and ONA entries when season = 0; TV entries for any
other season. -/
def seasonTypeKeepSpec (season : Option Nat) (entry : MappingEntry) : Bool :=
  entry.type == AnimeType.UNKNOWN
  || (season == none && entry.type == AnimeType.MOVIE)
  || (season == some 0 &&
        (entry.type == AnimeType.SPECIAL || entry.type == AnimeType.OVA ||
          entry.type == AnimeType.ONA))
  || ((match season with | some (_ + 1) => true | _ => false) &&
        entry.type == AnimeType.TV)

/- ## AnimeDatabase data store and lookups -/

/-- The in-memory indices `getEntryById` consults, projected to the maps the
multi-candidate selection reads.  Id values are stored under their canonical
keys; `getFromMap`'s three lookup forms are modelled by `manamiLookup`. -/
structure DataStore where
  kitsuById : List (Nat × KitsuEntry)
  fribbByImdbId : List (String × List MappingEntry)
  animeListByTvdbId : List (Nat × List AnimeListEntry)
  animeListById : List (Nat × AnimeListEntry)
  manami : List ((IdType × IdValue) × MinimisedManamiEntry)
deriving DecidableEq

/-- `getFromMap`: try the key itself, its string form, then its numeric form. -/
def manamiLookup (ds : DataStore) (t : IdType) (v : IdValue) :
    Option MinimisedManamiEntry :=
  jsNullish (alookup ds.manami (t, v))
    (jsNullish (alookup ds.manami (t, .str v.toKeyString))
      (match v.toNumKey with
       | some n => alookup ds.manami (t, .num n)
       | none => none))

/-- The entry-scanning loop shared by `findManamiDetailsFromMapping` and the
synonym fallback: the first truthy id whose manami lookup hits. -/
def manamiScan (ds : DataStore) : List (IdType × Option IdValue) →
    Option MinimisedManamiEntry
  | [] => none
  | (t, oid) :: rest =>
      match idValueTruthy oid with
      | none => manamiScan ds rest
      | some v =>
          match manamiLookup ds t v with
          | some d => some d
          | none => manamiScan ds rest

/-- `AnimeDatabase.findManamiDetailsFromMapping`. -/
def findManamiDetailsFromMapping (ds : DataStore) (m : MappingEntry) :
    Option MinimisedManamiEntry :=
  manamiScan ds m.idEntries

/- ## Season-synonym regex (new RegExp("season[\\s_-]*" + season, "i")) -/

def isWsChar (c : Char) : Bool :=
  c = ' ' || c = '\t' || c = '\n' || c = '\r' || c = '\x0b' || c = '\x0c'

def isSepClassChar (c : Char) : Bool := isWsChar c || c = '_' || c = '-'

/-- Consume a literal character sequence from the front, returning the rest. -/
def dropLiteral : List Char → List Char → Option (List Char)
  | [], l => some l
  | _ :: _, [] => none
  | p :: ps, c :: cs => if p = c then dropLiteral ps cs else none

/-- `[\s_-]*` followed by the target digits: at each step either the target
matches here or one separator-class character is consumed. -/
def sepStarThen (target : List Char) : List Char → Bool
  | [] => target.isPrefixOf []
  | c :: rest => target.isPrefixOf (c :: rest) || (isSepClassChar c && sepStarThen target rest)

/-- Whether `season[\s_-]*<target>` matches anywhere in the (lowercased)
character list. -/
def containsSeasonNum (target : List Char) : List Char → Bool
  | [] => false
  | c :: rest =>
      (match dropLiteral "season".data (c :: rest) with
       | some afterWord => sepStarThen target afterWord
       | none => false)
      || containsSeasonNum target rest

/-- The case-insensitive test of one synonym against the season regex of
`findBestMatchForSeasonEpisode`. -/
def seasonSynonymTest (season : Nat) (syn : String) : Bool :=
  containsSeasonNum (natToString season).data (jsToLower syn).data

/- ## AnimeDatabase.findAnimeListMatchForTvdbSeason -/

/-- The TVDB-season condition of the multi-candidate loop:
`defaultTvdbSeason` present and equal to the season or `'a'`. -/
def tvdbSeasonMatch (season : Nat) (c : AnimeListEntry) : Bool :=
  match c.defaultTvdbSeason with
  | some (.num n) => n == season
  | some .absolute => true
  | none => false

/-- The TVDB-season half of one iteration of the best-match loop over
AnimeList candidates; the state carries `(bestMatch, highestOffset)` and
`highestOffset` starts at `-1`. -/
def alMatchTvdb (season episode : Nat) (c : AnimeListEntry)
    (st : Option AnimeListEntry × Int) : Option AnimeListEntry × Int :=
  if tvdbSeasonMatch season c then
    if 1 + c.episodeOffset.getD 0 ≤ episode ∧ st.2 < (c.episodeOffset.getD 0 : Int) then
      (some c, (c.episodeOffset.getD 0 : Int))
    else st
  else st

/-- The TMDB fallback half of the same iteration, applied to the state left by
the TVDB half. -/
def alMatchTmdb (season episode : Nat) (c : AnimeListEntry)
    (st : Option AnimeListEntry × Int) : Option AnimeListEntry × Int :=
  if c.tmdbSeason == some season && !(c.defaultTvdbSeason == some (.num season)) then
    if 1 + c.tmdbOffset.getD 0 ≤ episode ∧ st.2 < (c.tmdbOffset.getD 0 : Int) then
      (some c, (c.tmdbOffset.getD 0 : Int))
    else st
  else st

/-- One iteration of the best-match loop over AnimeList candidates. -/
def alMatchStep (season episode : Nat) (st : Option AnimeListEntry × Int)
    (c : AnimeListEntry) : Option AnimeListEntry × Int :=
  alMatchTmdb season episode c (alMatchTvdb season episode c st)

/-- `AnimeDatabase.findAnimeListMatchForTvdbSeason`: a sole candidate is
returned unconditionally; among several, the loop keeps the matching entry
with the highest offset. -/
def findAnimeListMatchForTvdbSeason (ds : DataStore) (tvdbId season episode : Nat) :
    Option AnimeListEntry :=
  match alookup ds.animeListByTvdbId tvdbId with
  | none => none
  | some [] => none
  | some [c] => some c
  | some candidates => (candidates.foldl (alMatchStep season episode) (none, -1)).1

/-- The info-hash scan of `getTvdbIdFromImdbId`: the first truthy `thetvdbId`
among the mappings. -/
def scanTvdb : List MappingEntry → Option Nat
  | [] => none
  | m :: rest =>
      match natTruthy m.thetvdbId with
      | some t => some t
      | none => scanTvdb rest

/-- `AnimeDatabase.getTvdbIdFromImdbId`. -/
def getTvdbIdFromImdbId (ds : DataStore) (imdbId : String) : Option Nat :=
  match alookup ds.fribbByImdbId imdbId with
  | none => none
  | some [] => none
  | some mappingsL => scanTvdb mappingsL

/- ## AnimeDatabase.findBestMatchForSeasonEpisode -/

inductive CandidateSource where
  | kitsu | animeList
deriving DecidableEq

structure CandidateMatch where
  mapping : MappingEntry
  fromEpisode : Nat
  source : CandidateSource
  animeListEntry : Option AnimeListEntry
deriving DecidableEq

/-- The Kitsu pass of the candidate collection, for one mapping entry: a
truthy `kitsuId` whose Kitsu record has `fromSeason == season` and
`episode >= (fromEpisode ?? 1)` yields a candidate carrying that
`fromEpisode`. -/
def kitsuCandidateOf (ds : DataStore) (season episode : Nat)
    (me : MappingEntry) : Option CandidateMatch :=
  match natTruthy me.kitsuId with
  | none => none
  | some kid =>
      match alookup ds.kitsuById kid with
      | none => none
      | some ke =>
          if ke.fromSeason = some season then
            if ke.fromEpisode.getD 1 ≤ episode then
              some { mapping := me, fromEpisode := ke.fromEpisode.getD 1,
                     source := .kitsu, animeListEntry := none }
            else none
          else none

def kitsuCandidates (ds : DataStore) (mappingsList : List MappingEntry)
    (season episode : Nat) : List CandidateMatch :=
  mappingsList.filterMap (kitsuCandidateOf ds season episode)

/-- The TVDB id derived from the query id: direct for `thetvdbId` (parseInt on
strings), via the IMDB cross-reference for `imdbId`, null otherwise. -/
def queryTvdbId (ds : DataStore) (idType : IdType) (idValue : IdValue) : Option Nat :=
  if idType = .thetvdbId then
    match idValue with
    | .num n => some n
    | .str s => jsParseInt s
  else if idType = .imdbId then getTvdbIdFromImdbId ds idValue.toKeyString
  else none

/-- The AnimeList pass of the candidate collection: at most one candidate from
`findAnimeListMatchForTvdbSeason`, attached to the mapping entry sharing its
`anidbId`, with `fromEpisode = (episodeOffset ?? 0) + 1`. -/
def animeListCandidates (ds : DataStore) (mappingsList : List MappingEntry)
    (season episode : Nat) (idType : IdType) (idValue : IdValue) :
    List CandidateMatch :=
  match natTruthy (queryTvdbId ds idType idValue) with
  | none => []
  | some tvdbId =>
      match findAnimeListMatchForTvdbSeason ds tvdbId season episode with
      | none => []
      | some alMatch =>
          match mappingsList.find? fun m => m.anidbId == some alMatch.anidbId with
          | none => []
          | some matchingMapping =>
              [{ mapping := matchingMapping
                 fromEpisode := alMatch.episodeOffset.getD 0 + 1
                 source := .animeList
                 animeListEntry := some alMatch }]

/-- `candidates.reduce(...)`: the first candidate with the strictly greatest
`fromEpisode`. -/
def bestCandidate (c : CandidateMatch) (rest : List CandidateMatch) : CandidateMatch :=
  rest.foldl (fun best current =>
    if best.fromEpisode < current.fromEpisode then current else best) c

structure BestMatchResult where
  mappings : Option MappingEntry
  details : Option MinimisedManamiEntry
  animeListEntry : Option AnimeListEntry
deriving DecidableEq

/-- The synonym-matching fallback of `findBestMatchForSeasonEpisode`: per
mapping entry, the first id with manami details is tested against the season
regex; a miss moves on to the next mapping entry. -/
def synonymFallback (ds : DataStore) (season : Nat) : List MappingEntry →
    BestMatchResult
  | [] => { mappings := none, details := none, animeListEntry := none }
  | me :: rest =>
      match manamiScan ds me.idEntries with
      | some d =>
          if d.synonyms.any (seasonSynonymTest season) then
            { mappings := some me, details := some d, animeListEntry := none }
          else synonymFallback ds season rest
      | none => synonymFallback ds season rest

/-- `AnimeDatabase.findBestMatchForSeasonEpisode`. -/
def findBestMatchForSeasonEpisode (ds : DataStore) (mappingsList : List MappingEntry)
    (season episode : Nat) (idType : IdType) (idValue : IdValue) : BestMatchResult :=
  let candidates := kitsuCandidates ds mappingsList season episode
      ++ animeListCandidates ds mappingsList season episode idType idValue
  match candidates with
  | [] => synonymFallback ds season mappingsList
  | c :: rest =>
      let bm := bestCandidate c rest
      { mappings := some bm.mapping
        details := findManamiDetailsFromMapping ds bm.mapping
        animeListEntry := bm.animeListEntry }

/-- The first-mapping default of `selectBestMappingAndDetails`. -/
def defaultFirstMapping (ds : DataStore) : List MappingEntry → BestMatchResult
  | [] => { mappings := none, details := none, animeListEntry := none }
  | m :: _ =>
      { mappings := some m, details := findManamiDetailsFromMapping ds m,
        animeListEntry := none }

/-- `AnimeDatabase.selectBestMappingAndDetails`. -/
def selectBestMappingAndDetails (ds : DataStore) (mappingsList : List MappingEntry)
    (idType : IdType) (idValue : IdValue) (season episode : Option Nat) :
    BestMatchResult :=
  match mappingsList with
  | [] => { mappings := none, details := none, animeListEntry := none }
  | [m] =>
      { mappings := some m, details := findManamiDetailsFromMapping ds m,
        animeListEntry := none }
  | _ =>
      match season, episode with
      | some s, some e =>
          let m := findBestMatchForSeasonEpisode ds mappingsList s e idType idValue
          if m.mappings.isSome then m else defaultFirstMapping ds mappingsList
      | _, _ => defaultFirstMapping ds mappingsList

/-- The candidate set exactly as claim C5 words it, for comparison with the
code: Kitsu entries with `fromSeason` equal to the requested season and
`episode >= fromEpisode`, plus AnimeList entries reached via the TVDB id whose
season matches (or is `'a'`) with `episode >= 1 + episodeOffset`, each mapped
back to its mapping entry. -/
def claimCandidateMappings (ds : DataStore) (mappingsList : List MappingEntry)
    (season episode : Nat) (idType : IdType) (idValue : IdValue) :
    List MappingEntry :=
  (mappingsList.filter fun me =>
     match me.kitsuId with
     | some kid =>
         match alookup ds.kitsuById kid with
         | some ke => ke.fromSeason == some season && ke.fromEpisode.getD 1 ≤ episode
         | none => false
     | none => false)
  ++ (match natTruthy (queryTvdbId ds idType idValue) with
      | none => []
      | some tvdbId =>
          ((alookup ds.animeListByTvdbId tvdbId).getD []).filterMap fun al =>
            if tvdbSeasonMatch season al ∧ 1 + al.episodeOffset.getD 0 ≤ episode then
              mappingsList.find? fun m => m.anidbId == some al.anidbId
            else none)

/- ## getSeasonFromSynonyms (regex /(?:season|s)\s(\d+)/i) -/

/-- The maximal leading digit run (the greedy `(\d+)` capture). -/
def digitRun : List Char → List Char
  | [] => []
  | c :: rest => if isDigitChar c then c :: digitRun rest else []

/-- One whitespace character followed by at least one digit (`\s(\d+)`),
returning the captured digits. -/
def wsDigits : List Char → Option (List Char)
  | [] => none
  | w :: rest =>
      if isWsChar w then
        match digitRun rest with
        | [] => none
        | d :: ds => some (d :: ds)
      else none

/-- The alternation `(?:season|s)\s(\d+)` tried at one position of the
lowercased text: `season` first, then `s`. -/
def seasonCaptureAt (l : List Char) : Option (List Char) :=
  match dropLiteral "season".data l with
  | some rest =>
      match wsDigits rest with
      | some d => some d
      | none =>
          match dropLiteral ['s'] l with
          | some rest2 => wsDigits rest2
          | none => none
  | none =>
      match dropLiteral ['s'] l with
      | some rest2 => wsDigits rest2
      | none => none

/-- Leftmost match of the season regex over the text. -/
def seasonScan : List Char → Option (List Char)
  | [] => none
  | c :: rest =>
      match seasonCaptureAt (c :: rest) with
      | some d => some d
      | none => seasonScan rest

/-- `getSeasonFromSynonyms`: the first synonym matching
`/(?:season|s)\s(\d+)/i` yields its captured digits (`.trim()` on a digit run
is the identity). -/
def getSeasonFromSynonyms : List String → Option String
  | [] => none
  | syn :: rest =>
      match seasonScan (jsToLower syn).data with
      | some d => some ⟨d⟩
      | none => getSeasonFromSynonyms rest

/- ## enrichParsedIdWithAnimeEntry -/

/-- A `ParsedId`: season and episode are stored as strings, as in the source. -/
structure ParsedId where
  type : IdType
  value : IdValue
  season : Option String
  episode : Option String
deriving DecidableEq

/-- The season fallback chain of `enrichParsedIdWithAnimeEntry`. -/
def seasonFromEntry (e : AnimeEntry) : Option String :=
  jsNullish ((e.imdb.bind ImdbBlock.seasonNumber).map natToString)
    (jsNullish ((e.trakt.bind TraktBlock.seasonNumber).map natToString)
      (jsNullish ((e.tvdb.seasonNumber).map natToString)
        (jsNullish (match e.synonyms with
                    | some syns => getSeasonFromSynonyms syns
                    | none => none)
          ((e.tmdb.seasonNumber).map natToString))))

/-- The season half of `enrichParsedIdWithAnimeEntry`: fill a falsy season
from the entry's chain. -/
def enrichSeasonStep (parsedId : ParsedId) (animeEntry : AnimeEntry) : ParsedId :=
  if (strTruthy parsedId.season).isNone then
    { parsedId with season := seasonFromEntry animeEntry }
  else parsedId

/-- The rebased episode string `(fromEpisode + Number(episode) - 1).toString()`;
a non-numeric episode string turns into `"NaN"`. -/
def rebaseEpisode (fe : Nat) (episode : Option String) : String :=
  match episode with
  | some epStr =>
      match jsNumberNat epStr with
      | some n => natToString (fe + n - 1)
      | none => "NaN"
  | none => "NaN"

/-- The episode half of `enrichParsedIdWithAnimeEntry`: for `mal`/`kitsu` ids
with a truthy episode, rebase the episode when the effective `fromEpisode`
(`imdb` preferred over `tvdb`) is truthy and not 1. -/
def enrichEpisodeStep (p1 : ParsedId) (animeEntry : AnimeEntry) : ParsedId :=
  if (strTruthy p1.episode).isSome &&
      (p1.type == IdType.malId || p1.type == IdType.kitsuId) then
    match natTruthy (jsNullish (animeEntry.imdb.bind ImdbBlock.fromEpisode)
        animeEntry.tvdb.fromEpisode) with
    | some fe =>
        if fe ≠ 1 then { p1 with episode := some (rebaseEpisode fe p1.episode) }
        else p1
    | none => p1
  else p1

/-- `enrichParsedIdWithAnimeEntry` as a pure function on the parsed id: the
season fill followed by the episode rebase, both mutating in place in the
source. -/
def enrichParsedIdWithAnimeEntry (parsedId : ParsedId) (animeEntry : AnimeEntry) :
    ParsedId :=
  enrichEpisodeStep (enrichSeasonStep parsedId animeEntry) animeEntry

/- ## StreamContext.create -/

/-- The request-scoped facts `StreamContext.create` computes synchronously. -/
structure StreamContext where
  type : String
  id : String
  parsedId : Option ParsedId
  isAnime : Bool
  animeEntry : Option AnimeEntry
  queryType : String
deriving DecidableEq

/-- `String.prototype.startsWith`, expressed over character data. -/
def strStartsWith (s p : String) : Bool := p.data.isPrefixOf s.data

/-- `StreamContext.create`.  `IdParser.parse` and the `AnimeDatabase` methods
it calls are passed in as functions, so the theorems quantify over every
possible parser and database content.  The garbage case `Number(season)` =
`NaN` collapses to the undefined-season argument of the abstract lookup. -/
def StreamContext.create (parse : String → String → Option ParsedId)
    (dbIsAnime : String → Bool)
    (dbGetEntry : IdType → IdValue → Option Nat → Option Nat → Option AnimeEntry)
    (type id : String) : StreamContext :=
  let parsedId := parse id type
  let isAnime := strStartsWith id "kitsu" || dbIsAnime id
  match parsedId with
  | none =>
      { type := type, id := id, parsedId := none, isAnime := isAnime
        animeEntry := none
        queryType := if isAnime then "anime." ++ type else type }
  | some pid =>
      let animeEntry := dbGetEntry pid.type pid.value
          ((strTruthy pid.season).bind jsNumberNat)
          ((strTruthy pid.episode).bind jsNumberNat)
      let pid2 :=
        match animeEntry with
        | some e =>
            if (strTruthy pid.season).isNone then enrichParsedIdWithAnimeEntry pid e
            else pid
        | none => pid
      { type := type, id := id, parsedId := some pid2, isAnime := isAnime
        animeEntry := animeEntry
        queryType := if isAnime then "anime." ++ type else type }

/- ## StreamContext.startSeaDexFetch -/

/-- `parsedAnilistId` of `startSeaDexFetch`: numbers pass through, strings go
through `parseInt` with an `isNaN` rejection. -/
def parseAnilistId : IdValue → Option Nat
  | .num n => some n
  | .str s => jsParseInt s

/-- The decision core of `StreamContext.startSeaDexFetch`: whether a fetch
promise is created, mirroring the source's early returns (an in-flight or
finished slot, a non-anime request, or `enableSeadex === false` all bail out;
then a falsy or unparsable AniList id bails out). -/
def startSeaDexFetchStarts (promiseStarted fetched isAnime : Bool)
    (enableSeadex : Option Bool) (anilistIdRaw : Option IdValue) : Bool :=
  if promiseStarted || fetched || !isAnime then false
  else if enableSeadex = some false then false
  else
    match idValueTruthy anilistIdRaw with
    | none => false
    | some v => (parseAnilistId v).isSome

/- ## Corpus loaders: published-state traces (loadFribbMappings and
loadKitsuImdbMapping) -/

/-- The published indices the two loaders touch: `kitsuById` and the
`kitsuId`/`imdbId` projections of `fribbMappingsById`. -/
structure KitsuLoadStore where
  kitsuById : List (Nat × KitsuEntry)
  fribbByKitsuId : List (Nat × List MappingEntry)
  fribbByImdbId : List (String × List MappingEntry)
deriving DecidableEq

/-- Insertion into a multi-valued index: `get` then `push` in place or `set` a
fresh singleton, as the fribb loader does. -/
def asetAppend {α : Type} [DecidableEq α] (l : List (α × List MappingEntry))
    (k : α) (v : MappingEntry) : List (α × List MappingEntry) :=
  match alookup l k with
  | none => l ++ [(k, [v])]
  | some existing => aset l k (existing ++ [v])

/-- The index-building loop of `loadFribbMappings`, projected to the two
tracked id types: every valid entry with the id present is appended under it. -/
def buildFribbProjection (entries : List MappingEntry) :
    List (Nat × List MappingEntry) × List (String × List MappingEntry) :=
  entries.foldl
    (fun acc entry =>
      (match entry.kitsuId with
       | some kid => asetAppend acc.1 kid entry
       | none => acc.1,
       match entry.imdbId with
       | some im => asetAppend acc.2 im entry
       | none => acc.2))
    ([], [])

/-- The published states of `loadFribbMappings`: the new maps are built
locally and published in one assignment, so the only states a reader can see
are the initial one and the final one. -/
def loadFribbMappingsTrace (st0 : KitsuLoadStore) (entries : List MappingEntry) :
    List KitsuLoadStore :=
  let built := buildFribbProjection entries
  [st0, { st0 with fribbByKitsuId := built.1, fribbByImdbId := built.2 }]

/-- The enrichment pass of `loadKitsuImdbMapping` for one validated Kitsu
entry carrying an imdb id: every mapping under its `kitsuId` that lacks an
`imdbId` gets it written in place, and is pushed into the `imdbId` index
unless a mapping with the same `kitsuId` is already there.  The in-place
object mutation is modelled as a value update of the two tracked indices. -/
def kitsuEnrichStep (kid : Nat) (imdb : String) (st : KitsuLoadStore) :
    KitsuLoadStore :=
  match alookup st.fribbByKitsuId kid with
  | none => st
  | some kitsuMappings =>
      if kitsuMappings.isEmpty then st
      else
        let res := kitsuMappings.foldl
          (fun (acc : List MappingEntry × List (String × List MappingEntry)) mapping =>
            match strTruthy mapping.imdbId with
            | some _ => (acc.1 ++ [mapping], acc.2)
            | none =>
                let mapping2 := { mapping with imdbId := some imdb }
                let existing := (alookup acc.2 imdb).getD []
                if existing.any fun m => m.kitsuId == some kid then
                  (acc.1 ++ [mapping2], acc.2)
                else
                  (acc.1 ++ [mapping2], aset acc.2 imdb (existing ++ [mapping2])))
          ([], st.fribbByImdbId)
        { st with fribbByKitsuId := aset st.fribbByKitsuId kid res.1
                  fribbByImdbId := res.2 }

/-- Processing of one validated `(kitsuId, entry)` pair inside
`loadKitsuImdbMapping`'s loop: insert into the (published) `kitsuById` map,
then enrich when the entry carries a truthy imdb id. -/
def kitsuEntryStep (st : KitsuLoadStore) (entry : Nat × KitsuEntry) :
    KitsuLoadStore :=
  let st1 := { st with kitsuById := aset st.kitsuById entry.1 entry.2 }
  match strTruthy entry.2.imdbId with
  | some imdb => kitsuEnrichStep entry.1 imdb st1
  | none => st1

/-- The published states of `loadKitsuImdbMapping`: the loader first assigns a
fresh empty map to the published `kitsuById` and then populates it in place,
entry by entry (invalid entries are skipped before this loop and change no
state). -/
def loadKitsuImdbMappingTrace (st0 : KitsuLoadStore)
    (entries : List (Nat × KitsuEntry)) : List KitsuLoadStore :=
  st0 :: List.scanl kitsuEntryStep { st0 with kitsuById := [] } entries

/-- The property claim C8 asserts of every loader: each published state a
reader could observe is the complete old snapshot or the complete new one. -/
def snapshotAtomic (trace : List KitsuLoadStore) : Prop :=
  ∀ st ∈ trace, some st = trace.head? ∨ some st = trace.getLast?

/- ## Concrete request data used by the claim witnesses and counterexamples -/

def streamS1 : PStream := ⟨"s1", some "AAAA", some "SubsPlease", none, none, none⟩

def streamS2 : PStream := ⟨"s2", some "bbbb", some "SubsPlease", none, none, none⟩

/-- The SeaDex result of the spec's tagging scenario: best = all = {aaaa},
allGroups = {subsplease}. -/
def seadexScenario : SeaDexResult := ⟨["aaaa"], ["aaaa"], [], ["subsplease"]⟩

def streamT1 : PStream := ⟨"t1", none, none, none, none, none⟩

def streamT2 : PStream := ⟨"t2", none, none, none, none, none⟩

def streamT3 : PStream := ⟨"t3", none, none, none, none, none⟩

def exprIsT1 : PStream → Bool := fun s => s.id == "t1"

def exprAll : PStream → Bool := fun _ => true

def exprIs1080 : PStream → Bool := fun s => s.id == "t1" || s.id == "t3"

def exprIsCached : PStream → Bool := fun s => s.id == "t1" || s.id == "t2"

def mappingUnknown : MappingEntry :=
  ⟨none, none, none, none, none, none, none, none, none, none, none, none, none,
   none, .UNKNOWN, none⟩

def mappingMovie : MappingEntry :=
  ⟨none, none, none, none, none, none, none, none, none, none, none, none, none,
   none, .MOVIE, none⟩

def mappingTv : MappingEntry :=
  ⟨none, none, none, none, none, none, none, none, none, none, none, none, none,
   none, .TV, none⟩

def mappingOva : MappingEntry :=
  ⟨none, none, none, none, none, none, none, none, none, none, none, none, none,
   none, .OVA, none⟩

/-- The kitsu record of the spec's season-resolution scenario with
`fromSeason = 1`. -/
def kitsuFromSeason1 : KitsuEntry := ⟨none, none, none, none, some 1, none, none⟩

/-- The kitsu record with `fromSeason = 2, fromEpisode = 1`. -/
def kitsuFromSeason2 : KitsuEntry := ⟨none, none, none, none, some 2, some 1, none⟩

def mappingKitsu7936 : MappingEntry :=
  ⟨none, none, none, none, none, none, some 7936, none, none, none, none, none,
   none, none, .TV, none⟩

def mappingKitsu11111 : MappingEntry :=
  ⟨none, none, none, none, none, none, some 11111, none, none, none, none, none,
   none, none, .TV, none⟩

def dsSeason2 : DataStore :=
  ⟨[(7936, kitsuFromSeason1), (11111, kitsuFromSeason2)], [], [], [], []⟩

def candidate11111 : CandidateMatch := ⟨mappingKitsu11111, 1, .kitsu, none⟩

def mappingAnidb10 : MappingEntry :=
  ⟨none, none, some 10, none, none, none, none, none, none, none, none, none,
   none, none, .TV, none⟩

def mappingAnidb1 : MappingEntry :=
  ⟨none, none, some 1, none, none, none, none, none, none, none, none, none,
   none, none, .TV, none⟩

/-- An AnimeList entry under TVDB id 100 whose default TVDB season is 5. -/
def animeListSeason5 : AnimeListEntry :=
  ⟨1, some 100, some (.num 5), none, none, none, none, none, none, none⟩

def dsSingleAnimeList : DataStore := ⟨[], [], [(100, [animeListSeason5])], [], []⟩

def emptyFinalMappings : FinalMappings :=
  ⟨none, none, none, none, none, none, none, none, none, none, none, none, none,
   none⟩

/-- An anime entry whose imdb block carries `fromEpisode = 13`. -/
def entryFromEpisode13 : AnimeEntry :=
  { mappings := emptyFinalMappings, type := .UNKNOWN
    imdb := some ⟨none, some 13, none, none⟩, fanart := none, trakt := none
    tmdb := ⟨none, none, none⟩, tvdb := ⟨none, none, none⟩
    title := none, animeSeason := none, synonyms := none, episodeMappings := none }

def parsedKitsuS2E5 : ParsedId := ⟨.kitsuId, .num 7936, some "2", some "5"⟩

def parsedImdbS2E5 : ParsedId := ⟨.imdbId, .str "tt1", some "2", some "5"⟩

def emptyKitsuEntry : KitsuEntry := ⟨none, none, none, none, none, none, none⟩

def storeOneKitsu : KitsuLoadStore := ⟨[(1, emptyKitsuEntry)], [], []⟩

def parseAlwaysKitsu : String → String → Option ParsedId :=
  fun _ _ => some ⟨.kitsuId, .num 123, none, none⟩

def dbIsAnimeNever : String → Bool := fun _ => false

def dbGetEntryNone : IdType → IdValue → Option Nat → Option Nat → Option AnimeEntry :=
  fun _ _ _ _ => none

instance (trace : List KitsuLoadStore) : Decidable (snapshotAtomic trace) := by
  unfold snapshotAtomic
  infer_instance

/- ## General lemmas -/

theorem forall2_map_self {α : Type} {P : α → α → Prop} (f : α → α) (l : List α)
    (h : ∀ s ∈ l, P s (f s)) : List.Forall₂ P l (l.map f) := by
  induction l with
  | nil => exact List.Forall₂.nil
  | cons a t ih =>
      exact List.Forall₂.cons (h a (by simp)) (ih fun s hs => h s (by simp [hs]))

theorem forall2_refl_self {α : Type} {P : α → α → Prop} (l : List α)
    (h : ∀ s ∈ l, P s s) : List.Forall₂ P l l := by
  induction l with
  | nil => exact List.Forall₂.nil
  | cons a t ih =>
      exact List.Forall₂.cons (h a (by simp)) (ih fun s hs => h s (by simp [hs]))

/-- With request-unique stream ids, scanning a filtered sublist for a member's
id is the same as evaluating the filter predicate on the member itself. -/
theorem filter_any_id {streams : List PStream}
    (hnd : (streams.map PStream.id).Nodup) {s : PStream} (hs : s ∈ streams)
    (q : PStream → Bool) :
    ((streams.filter q).any fun t => t.id == s.id) = q s := by
  cases hq : q s with
  | true =>
      apply List.any_eq_true.mpr
      exact ⟨s, List.mem_filter.mpr ⟨hs, hq⟩, by simp⟩
  | false =>
      apply (Bool.eq_false_iff).mpr
      intro hany
      obtain ⟨t, ht, hbeq⟩ := List.any_eq_true.mp hany
      have htm := List.mem_filter.mp ht
      have hid : t.id = s.id := by simpa using hbeq
      have hts : t = s := List.inj_on_of_nodup_map hnd htm.1 hs hid
      rw [hts, hq] at htm
      exact Bool.false_ne_true htm.2

/- ## Claim C1: SeaDex hash tagging and hash-over-group priority -/

theorem tagStreamByHash_of_mem (res : SeaDexResult) (s : PStream) (h : String)
    (hh : truthyInfoHash s = some h) (hmem : res.allHashes.contains h = true) :
    tagStreamByHash res s =
      { s with seadex := some { isBest := res.bestHashes.contains h, isSeadex := true } } := by
  have hmem2 : h ∈ res.allHashes := by simpa using hmem
  simp [tagStreamByHash, hh, hmem2]

theorem tagStreamByHash_of_not_mem (res : SeaDexResult) (s : PStream)
    (hno : hashMatches res s = false) : tagStreamByHash res s = s := by
  cases hht : truthyInfoHash s with
  | none => simp [tagStreamByHash, hht]
  | some h =>
      unfold hashMatches at hno
      rw [hht] at hno
      simp at hno
      simp [tagStreamByHash, hht, hno]

/-- C1: in `precomputeSeaDexFromResult` with a non-empty SeaDex result, every
stream whose lowercased truthy info-hash is in `allHashes` is tagged
`{isBest := hash ∈ bestHashes, isSeadex := true}`, and whenever at least one
stream's hash matched, every stream whose hash did not match (or that has no
truthy hash) keeps its `seadex` field unchanged — in particular undefined
stays undefined, so the group fallback never runs. -/
theorem c1_seadex_hash_priority (streams : List PStream) (res : SeaDexResult)
    (hne : seaDexResultEmpty res = false) :
    List.Forall₂ (fun s t =>
        (∀ h, truthyInfoHash s = some h → res.allHashes.contains h = true →
            t.seadex = some { isBest := res.bestHashes.contains h, isSeadex := true })
        ∧ (streams.any (hashMatches res) = true → hashMatches res s = false →
            t.seadex = s.seadex))
      streams (precomputeSeaDexFromResult streams res) := by
  unfold precomputeSeaDexFromResult
  rw [hne]
  simp only [Bool.false_eq_true, if_false]
  cases hany : streams.any (hashMatches res) with
  | true =>
      simp only [if_true]
      apply forall2_map_self
      intro s hs
      constructor
      · intro h hh hmem
        rw [tagStreamByHash_of_mem res s h hh hmem]
      · intro _ hno
        rw [tagStreamByHash_of_not_mem res s hno]
  | false =>
      simp only [Bool.false_eq_true, if_false]
      rw [List.map_map]
      apply forall2_map_self
      intro s hs
      constructor
      · intro h hh hmem
        exfalso
        have hcontra : streams.any (hashMatches res) = true := by
          apply List.any_eq_true.mpr
          refine ⟨s, hs, ?_⟩
          unfold hashMatches
          rw [hh]
          exact hmem
        rw [hcontra] at hany
        exact Bool.noConfusion hany
      · intro habs _
        exact habs.elim

/- ## Claim C2: preferred expressions claim the lowest matching index -/

theorem claimFold_stable (streams : List PStream) (exprs : List (PStream → Bool))
    (i : Nat) (acc : String → Option Nat) (sid : String) (j : Nat)
    (h : acc sid = some j) : claimFold streams i acc exprs sid = some j := by
  induction exprs generalizing i acc with
  | nil => simpa [claimFold] using h
  | cons e rest ih =>
      unfold claimFold
      have key : ((streams.filter fun t => (acc t.id).isNone).filter e).any
          (fun t => t.id == sid) = false := by
        apply Bool.eq_false_iff.mpr
        intro hany
        obtain ⟨t, ht, hbeq⟩ := List.any_eq_true.mp hany
        have h1 := (List.mem_filter.mp ht).1
        have h2 := (List.mem_filter.mp h1).2
        have hid : t.id = sid := by simpa using hbeq
        rw [hid, h] at h2
        simp at h2
      apply ih
      show (if ((selectStreams e (streams.filter fun t => (acc t.id).isNone)).any
          fun t => t.id == sid) = true then some i else acc sid) = some j
      simp only [selectStreams]
      split
      · rename_i hcond
        rw [key] at hcond
        exact Bool.noConfusion hcond
      · exact h

theorem claimFold_eq_lowestMatchIdx (streams : List PStream)
    (hnd : (streams.map PStream.id).Nodup) (s : PStream) (hs : s ∈ streams)
    (exprs : List (PStream → Bool)) (i : Nat) (acc : String → Option Nat)
    (h : acc s.id = none) :
    claimFold streams i acc exprs s.id = (lowestMatchIdx exprs s).map (· + i) := by
  induction exprs generalizing i acc with
  | nil => simpa [claimFold, lowestMatchIdx] using h
  | cons e rest ih =>
      unfold claimFold
      have hsel : ((streams.filter fun t => (acc t.id).isNone).filter e).any
          (fun t => t.id == s.id) = (e s && (acc s.id).isNone) := by
        rw [List.filter_filter]
        exact filter_any_id hnd hs _
      cases he : e s with
      | true =>
          have hthis : claimFold streams (i + 1)
              (fun sid => if ((selectStreams e (streams.filter fun t =>
                  (acc t.id).isNone)).any (fun t => t.id == sid)) = true then some i
                else acc sid) rest s.id = some i := by
            apply claimFold_stable
            show (if ((selectStreams e (streams.filter fun t => (acc t.id).isNone)).any
                fun t => t.id == s.id) = true then some i else acc s.id) = some i
            simp only [selectStreams]
            split
            · rfl
            · rename_i hcond
              rw [hsel] at hcond
              simp [he, h] at hcond
          rw [hthis]
          simp [lowestMatchIdx, he]
      | false =>
          have hstep : claimFold streams (i + 1)
              (fun sid => if ((selectStreams e (streams.filter fun t =>
                  (acc t.id).isNone)).any (fun t => t.id == sid)) = true then some i
                else acc sid) rest s.id
              = (lowestMatchIdx rest s).map (· + (i + 1)) := by
            apply ih
            show (if ((selectStreams e (streams.filter fun t => (acc t.id).isNone)).any
                fun t => t.id == s.id) = true then some i else acc s.id) = none
            simp only [selectStreams]
            split
            · rename_i hcond
              rw [hsel] at hcond
              simp [he] at hcond
            · exact h
          rw [hstep]
          cases hX : lowestMatchIdx rest s with
          | none => simp [lowestMatchIdx, he, hX]
          | some k =>
              simp [lowestMatchIdx, he, hX]
              omega

theorem lowestMatchIdx_append_some (exprs : List (PStream → Bool))
    (e' : PStream → Bool) (s : PStream) (i : Nat)
    (h : lowestMatchIdx exprs s = some i) :
    lowestMatchIdx (exprs ++ [e']) s = some i := by
  induction exprs generalizing i with
  | nil => simp [lowestMatchIdx] at h
  | cons e rest ih =>
      rw [List.cons_append]
      unfold lowestMatchIdx at h ⊢
      cases he : e s with
      | true => rw [he] at h; simpa using h
      | false =>
          rw [he] at h
          simp only [Bool.false_eq_true, if_false] at h ⊢
          obtain ⟨k, hk, rfl⟩ := Option.map_eq_some'.mp h
          rw [ih k hk]
          rfl

theorem precomputeStreamExpressionMatches_spec (exprs : List (PStream → Bool))
    (streams : List PStream) (hnd : (streams.map PStream.id).Nodup)
    (hfresh : ∀ s ∈ streams, s.streamExpressionMatched = none) :
    List.Forall₂ (fun s t => t.streamExpressionMatched = lowestMatchIdx exprs s)
      streams (precomputeStreamExpressionMatches exprs streams) := by
  unfold precomputeStreamExpressionMatches
  cases exprs with
  | nil =>
      simp only [List.isEmpty_nil, if_true]
      apply forall2_refl_self
      intro s hs
      rw [hfresh s hs]
      rfl
  | cons e rest =>
      simp only [List.isEmpty_cons, Bool.false_eq_true, if_false]
      apply forall2_map_self
      intro s hs
      show claimFold streams 0 (fun _ => none) (e :: rest) s.id
          = lowestMatchIdx (e :: rest) s
      rw [claimFold_eq_lowestMatchIdx streams hnd s hs (e :: rest) 0 (fun _ => none) rfl]
      cases lowestMatchIdx (e :: rest) s with
      | none => rfl
      | some k => simp

/-- C2: after the preferred-expression precompute (with request-unique stream
ids and fresh annotations), every stream's `streamExpressionMatched` equals
the lowest index whose expression selects it (`undefined` when none does), and
appending a new expression at the end of the list never changes an
already-claimed stream's index. -/
theorem c2_preferred_lowest_claim (exprs : List (PStream → Bool))
    (e' : PStream → Bool) (streams : List PStream)
    (hnd : (streams.map PStream.id).Nodup)
    (hfresh : ∀ s ∈ streams, s.streamExpressionMatched = none) :
    List.Forall₂ (fun s t => t.streamExpressionMatched = lowestMatchIdx exprs s)
        streams (precomputeStreamExpressionMatches exprs streams)
    ∧ List.Forall₂ (fun s t => ∀ i, lowestMatchIdx exprs s = some i →
          t.streamExpressionMatched = some i)
        streams (precomputeStreamExpressionMatches (exprs ++ [e']) streams) := by
  constructor
  · exact precomputeStreamExpressionMatches_spec exprs streams hnd hfresh
  · have hmain := precomputeStreamExpressionMatches_spec (exprs ++ [e']) streams hnd hfresh
    apply List.Forall₂.imp ?_ hmain
    intro s t ht i hi
    rw [ht]
    exact lowestMatchIdx_append_some exprs e' s i hi

/- ## Claim C3: ranked scores are additive, undefined when nothing matched -/

theorem anyEntryMatches_cons (e : PStream → Bool) (sc : Int)
    (rest : List ((PStream → Bool) × Int)) (s : PStream) :
    anyEntryMatches ((e, sc) :: rest) s = (e s || anyEntryMatches rest s) := by
  unfold anyEntryMatches
  rw [List.any_cons]

theorem matchedScoreSum_cons (e : PStream → Bool) (sc : Int)
    (rest : List ((PStream → Bool) × Int)) (s : PStream) :
    matchedScoreSum ((e, sc) :: rest) s =
      if e s then sc + matchedScoreSum rest s else matchedScoreSum rest s := by
  unfold matchedScoreSum
  cases he : e s <;> simp [List.filter_cons, he]

theorem matchedScoreSum_of_no_match (entries : List ((PStream → Bool) × Int))
    (s : PStream) (h : anyEntryMatches entries s = false) :
    matchedScoreSum entries s = 0 := by
  unfold matchedScoreSum
  have hnil : entries.filter (fun p => p.1 s) = [] := by
    rw [List.filter_eq_nil_iff]
    intro p hp
    intro hps
    have : anyEntryMatches entries s = true :=
      List.any_eq_true.mpr ⟨p, hp, hps⟩
    rw [this] at h
    exact Bool.noConfusion h
  rw [hnil]
  rfl

theorem scoreFold_spec (streams : List PStream)
    (hnd : (streams.map PStream.id).Nodup) (s : PStream) (hs : s ∈ streams)
    (entries : List ((PStream → Bool) × Int)) (acc : String → Option Int) :
    scoreFold streams acc entries s.id =
      if anyEntryMatches entries s then
        some ((acc s.id).getD 0 + matchedScoreSum entries s)
      else acc s.id := by
  induction entries generalizing acc with
  | nil => simp [scoreFold, anyEntryMatches]
  | cons p rest ih =>
      obtain ⟨e, sc⟩ := p
      unfold scoreFold
      have hsel : ((streams.filter e).any fun t => t.id == s.id) = e s :=
        filter_any_id hnd hs e
      rw [ih]
      have hacc2 : (if ((selectStreams e streams).any fun t => t.id == s.id) = true
          then some ((acc s.id).getD 0 + sc) else acc s.id)
          = if e s then some ((acc s.id).getD 0 + sc) else acc s.id := by
        simp only [selectStreams]
        split
        · rename_i hcond
          rw [hsel] at hcond
          simp [hcond]
        · rename_i hcond
          rw [hsel] at hcond
          simp only [Bool.not_eq_true] at hcond
          simp [hcond]
      rw [hacc2]
      cases he : e s with
      | true =>
          cases hrest : anyEntryMatches rest s with
          | true =>
              have hall : anyEntryMatches ((e, sc) :: rest) s = true := by
                rw [anyEntryMatches_cons, he, hrest]
                rfl
              rw [hall, matchedScoreSum_cons, he]
              simp
              omega
          | false =>
              have hall : anyEntryMatches ((e, sc) :: rest) s = true := by
                rw [anyEntryMatches_cons, he, hrest]
                rfl
              rw [hall, matchedScoreSum_cons, he]
              rw [matchedScoreSum_of_no_match rest s hrest]
              simp
      | false =>
          cases hrest : anyEntryMatches rest s with
          | true =>
              have hall : anyEntryMatches ((e, sc) :: rest) s = true := by
                rw [anyEntryMatches_cons, he, hrest]
                rfl
              rw [hall, matchedScoreSum_cons, he]
              simp
          | false =>
              have hall : anyEntryMatches ((e, sc) :: rest) s = false := by
                rw [anyEntryMatches_cons, he, hrest]
                rfl
              rw [hall]
              simp

/-- C3: after the ranked-expression precompute (with request-unique stream ids
and fresh annotations), every stream's `streamExpressionScore` is the sum of
the scores of all entries whose expression selects it, and is undefined — not
0 — exactly when no expression selects it; a stream selected by at least one
expression always carries a numeric total, even a total of 0. -/
theorem c3_ranked_scores_additive (entries : List ((PStream → Bool) × Int))
    (streams : List PStream) (hnd : (streams.map PStream.id).Nodup)
    (hfresh : ∀ s ∈ streams, s.streamExpressionScore = none) :
    List.Forall₂ (fun s t => t.streamExpressionScore =
        if anyEntryMatches entries s then some (matchedScoreSum entries s) else none)
      streams (precomputeRankedStreamExpressions entries streams) := by
  unfold precomputeRankedStreamExpressions
  cases hguard : entries.isEmpty || streams.isEmpty with
  | true =>
      simp only [if_true]
      apply forall2_refl_self
      intro s hs
      rw [hfresh s hs]
      rcases Bool.or_eq_true_iff.mp hguard with hemp | hemp
      · cases entries with
        | nil => simp [anyEntryMatches]
        | cons p r => simp [List.isEmpty_cons] at hemp
      · cases streams with
        | nil => simp at hs
        | cons a r => simp [List.isEmpty_cons] at hemp
  | false =>
      simp only [Bool.false_eq_true, if_false]
      apply forall2_map_self
      intro s hs
      show scoreFold streams (fun _ => none) entries s.id =
          if anyEntryMatches entries s then some (matchedScoreSum entries s) else none
      rw [scoreFold_spec streams hnd s hs entries (fun _ => none)]
      cases anyEntryMatches entries s with
      | true => simp
      | false => rfl

/- ## Claim C4: the season-type filter keeps exactly the claimed types -/

theorem seasonTypeKeep_eq_spec (season : Option Nat) (e : MappingEntry) :
    seasonTypeKeep season e = seasonTypeKeepSpec season e := by
  cases he : e.type <;> rcases season with _ | (_ | n) <;>
    simp [seasonTypeKeep, seasonTypeKeepSpec, he]

/-- C4: for a non-empty mapping list, the season-type filter of `getEntryById`
keeps exactly the UNKNOWN-typed entries, MOVIE entries when the season is
undefined, SPECIAL/OVA/ONA entries when the season is 0, and TV entries for
any other season; when that filter empties the list, the original unfiltered
list is returned unchanged. -/
theorem c4_season_type_filter (l : List MappingEntry) (season : Option Nat)
    (hne : l ≠ []) :
    filterMappingsBySeasonType l season =
      if (l.filter (seasonTypeKeepSpec season)).isEmpty then l
      else l.filter (seasonTypeKeepSpec season) := by
  unfold filterMappingsBySeasonType
  rw [List.filter_congr fun e _ => seasonTypeKeep_eq_spec season e]
  cases hf : l.filter (seasonTypeKeepSpec season) with
  | nil => simp
  | cons a t => simp

/- ## Claim C6: fromEpisode offsets in the derived AnimeEntry -/

/-- C6: in every `AnimeEntry` built by `buildAnimeEntry`, `tvdb.fromEpisode`
is the resolved AnimeList entry's `episodeOffset + 1` when that offset is
present and null otherwise, and `tmdb.fromEpisode` likewise from `tmdbOffset`. -/
theorem c6_fromEpisode_offsets (m : Option MappingEntry)
    (d : Option MinimisedManamiEntry) (k : Option KitsuEntry)
    (tv : Option ExtendedAnitraktTvEntry) (mv : Option ExtendedAnitraktMovieEntry)
    (al : Option AnimeListEntry) :
    (buildAnimeEntry m d k tv mv al).tvdb.fromEpisode
        = (al.bind AnimeListEntry.episodeOffset).map (· + 1)
    ∧ (buildAnimeEntry m d k tv mv al).tmdb.fromEpisode
        = (al.bind AnimeListEntry.tmdbOffset).map (· + 1) :=
  ⟨rfl, rfl⟩

/- ## Claim C9: kitsu-prefixed ids are always treated as anime -/

/-- C9: for every parser, database behaviour and request, whenever the request
id starts with `kitsu`, `StreamContext.create` sets `isAnime` and makes
`queryType` `anime.<type>`; when the database resolves no entry the context's
`animeEntry` stays null while `isAnime` remains true. -/
theorem c9_kitsu_prefix_isAnime (parse : String → String → Option ParsedId)
    (dbIsAnime : String → Bool)
    (dbGetEntry : IdType → IdValue → Option Nat → Option Nat → Option AnimeEntry)
    (type id : String) (h : strStartsWith id "kitsu" = true) :
    (StreamContext.create parse dbIsAnime dbGetEntry type id).isAnime = true
    ∧ (StreamContext.create parse dbIsAnime dbGetEntry type id).queryType
        = "anime." ++ type
    ∧ ((∀ t v os oe, dbGetEntry t v os oe = none) →
        (StreamContext.create parse dbIsAnime dbGetEntry type id).animeEntry = none) := by
  unfold StreamContext.create
  cases hp : parse id type with
  | none =>
      refine ⟨by simp [h], by simp [h], ?_⟩
      intro hdb
      simp
  | some pid =>
      refine ⟨by simp [h], by simp [h], ?_⟩
      intro hdb
      simp [hdb]

/- ## Claim C10: an unset enableSeadex starts the fetch but never tags -/

/-- C10: with `enableSeadex` unset (undefined), `startSeaDexFetch` still
creates the fetch promise for an anime request with a usable AniList id (only
an explicit `false` disables it), while `precomputeSeaDexOnly` returns the
stream list unchanged for every `enableSeadex` other than an explicit `true` —
so SeaDex tagging happens only when `enableSeadex` is truthy. -/
theorem c10_enableSeadex_unset (started fetched isAnime : Bool)
    (anilistIdRaw : Option IdValue) (av : IdValue) (k : Nat)
    (seadexResult : Option SeaDexResult) (streams : List PStream)
    (hs : started = false) (hf : fetched = false) (ha : isAnime = true)
    (hA : idValueTruthy anilistIdRaw = some av) (hP : parseAnilistId av = some k) :
    startSeaDexFetchStarts started fetched isAnime none anilistIdRaw = true
    ∧ (∀ es : Option Bool, es ≠ some true →
        precomputeSeaDexOnly isAnime es seadexResult streams = streams) := by
  constructor
  · subst hs
    subst hf
    subst ha
    unfold startSeaDexFetchStarts
    simp [hA, hP]
  · intro es hes
    unfold precomputeSeaDexOnly
    have hgd : es.getD false = false := by
      cases es with
      | none => rfl
      | some b =>
          cases b with
          | true => exact absurd rfl hes
          | false => rfl
    rw [hgd]
    simp

/- ## Claim C5: candidate construction and highest-fromEpisode selection -/

theorem kitsuCandidateOf_eq_some_iff (ds : DataStore) (season episode : Nat)
    (me : MappingEntry) (cm : CandidateMatch) :
    kitsuCandidateOf ds season episode me = some cm ↔
      ∃ kid ke, natTruthy me.kitsuId = some kid ∧
        alookup ds.kitsuById kid = some ke ∧ ke.fromSeason = some season ∧
        ke.fromEpisode.getD 1 ≤ episode ∧
        cm = { mapping := me, fromEpisode := ke.fromEpisode.getD 1,
               source := .kitsu, animeListEntry := none } := by
  unfold kitsuCandidateOf
  cases hkid : natTruthy me.kitsuId with
  | none => simp
  | some kid =>
      dsimp only
      cases hke : alookup ds.kitsuById kid with
      | none => simp [hke]
      | some ke =>
          dsimp only
          by_cases hfs : ke.fromSeason = some season
          · rw [if_pos hfs]
            by_cases hep : ke.fromEpisode.getD 1 ≤ episode
            · rw [if_pos hep]
              constructor
              · intro hsome
                exact ⟨kid, ke, rfl, hke, hfs, hep, (Option.some.inj hsome).symm⟩
              · rintro ⟨kid2, ke2, hk2, hke2, _, _, rfl⟩
                obtain rfl : kid2 = kid := (Option.some.inj hk2).symm
                obtain rfl : ke2 = ke := (Option.some.inj (hke.symm.trans hke2)).symm
                rfl
            · rw [if_neg hep]
              constructor
              · intro hsome
                exact absurd hsome (by simp)
              · rintro ⟨kid2, ke2, hk2, hke2, _, hep2, rfl⟩
                obtain rfl : kid2 = kid := (Option.some.inj hk2).symm
                obtain rfl : ke2 = ke := (Option.some.inj (hke.symm.trans hke2)).symm
                exact absurd hep2 hep
          · rw [if_neg hfs]
            constructor
            · intro hsome
              exact absurd hsome (by simp)
            · rintro ⟨kid2, ke2, hk2, hke2, hfs2, _, rfl⟩
              obtain rfl : kid2 = kid := (Option.some.inj hk2).symm
              obtain rfl : ke2 = ke := (Option.some.inj (hke.symm.trans hke2)).symm
              exact absurd hfs2 hfs

theorem mem_kitsuCandidates_iff (ds : DataStore) (l : List MappingEntry)
    (season episode : Nat) (cm : CandidateMatch) :
    cm ∈ kitsuCandidates ds l season episode ↔
      ∃ me ∈ l, ∃ kid ke, natTruthy me.kitsuId = some kid ∧
        alookup ds.kitsuById kid = some ke ∧ ke.fromSeason = some season ∧
        ke.fromEpisode.getD 1 ≤ episode ∧
        cm = { mapping := me, fromEpisode := ke.fromEpisode.getD 1,
               source := .kitsu, animeListEntry := none } := by
  unfold kitsuCandidates
  rw [List.mem_filterMap]
  constructor
  · rintro ⟨me, hme, hsome⟩
    obtain ⟨kid, ke, h1, h2, h3, h4, h5⟩ :=
      (kitsuCandidateOf_eq_some_iff ds season episode me cm).mp hsome
    exact ⟨me, hme, kid, ke, h1, h2, h3, h4, h5⟩
  · rintro ⟨me, hme, kid, ke, h1, h2, h3, h4, h5⟩
    refine ⟨me, hme, ?_⟩
    exact (kitsuCandidateOf_eq_some_iff ds season episode me cm).mpr
      ⟨kid, ke, h1, h2, h3, h4, h5⟩

/-- The condition under which the multi-candidate AnimeList loop may keep an
entry: its TVDB season matches (or is absolute) with the episode past the
episode offset, or the TMDB fallback matches with the episode past the TMDB
offset. -/
def alCandidateCond (season episode : Nat) (al : AnimeListEntry) : Prop :=
  (tvdbSeasonMatch season al = true ∧ 1 + al.episodeOffset.getD 0 ≤ episode)
  ∨ (al.tmdbSeason = some season ∧ al.defaultTvdbSeason ≠ some (.num season)
      ∧ 1 + al.tmdbOffset.getD 0 ≤ episode)

theorem alMatchTvdb_some (season episode : Nat) (c : AnimeListEntry)
    (st : Option AnimeListEntry × Int) (a : AnimeListEntry)
    (h : (alMatchTvdb season episode c st).1 = some a) :
    st.1 = some a
    ∨ (a = c ∧ tvdbSeasonMatch season c = true ∧
        1 + c.episodeOffset.getD 0 ≤ episode) := by
  unfold alMatchTvdb at h
  split at h
  · rename_i hmatch
    split at h
    · rename_i hcond
      exact Or.inr ⟨(Option.some.inj h).symm, hmatch, hcond.1⟩
    · exact Or.inl h
  · exact Or.inl h

theorem alMatchTmdb_some (season episode : Nat) (c : AnimeListEntry)
    (st : Option AnimeListEntry × Int) (a : AnimeListEntry)
    (h : (alMatchTmdb season episode c st).1 = some a) :
    st.1 = some a
    ∨ (a = c ∧ c.tmdbSeason = some season ∧
        c.defaultTvdbSeason ≠ some (.num season) ∧
        1 + c.tmdbOffset.getD 0 ≤ episode) := by
  unfold alMatchTmdb at h
  split at h
  · rename_i hmatch
    simp only [Bool.and_eq_true, beq_iff_eq, Bool.not_eq_eq_eq_not, Bool.not_true,
      beq_eq_false_iff_ne] at hmatch
    split at h
    · rename_i hcond
      exact Or.inr ⟨(Option.some.inj h).symm, hmatch.1, hmatch.2, hcond.1⟩
    · exact Or.inl h
  · exact Or.inl h

theorem alMatchStep_some (season episode : Nat)
    (st : Option AnimeListEntry × Int) (c : AnimeListEntry) (a : AnimeListEntry)
    (h : (alMatchStep season episode st c).1 = some a) :
    st.1 = some a ∨ (a = c ∧ alCandidateCond season episode a) := by
  unfold alMatchStep at h
  rcases alMatchTmdb_some season episode c _ a h with h1 | ⟨rfl, h2⟩
  · rcases alMatchTvdb_some season episode c st a h1 with h3 | ⟨rfl, h4⟩
    · exact Or.inl h3
    · exact Or.inr ⟨rfl, Or.inl ⟨h4.1, h4.2⟩⟩
  · exact Or.inr ⟨rfl, Or.inr h2⟩

theorem foldl_alMatchStep_some (season episode : Nat) (cs : List AnimeListEntry) :
    ∀ (st : Option AnimeListEntry × Int) (a : AnimeListEntry),
      (cs.foldl (alMatchStep season episode) st).1 = some a →
      st.1 = some a ∨ (a ∈ cs ∧ alCandidateCond season episode a) := by
  induction cs with
  | nil =>
      intro st a h
      exact Or.inl h
  | cons c rest ih =>
      intro st a h
      rw [List.foldl_cons] at h
      rcases ih _ a h with hst | ⟨hmem, hcond⟩
      · rcases alMatchStep_some season episode st c a hst with h1 | ⟨heq, hcond⟩
        · exact Or.inl h1
        · exact Or.inr ⟨heq ▸ List.mem_cons_self c rest, hcond⟩
      · exact Or.inr ⟨List.mem_cons_of_mem c hmem, hcond⟩

theorem findAnimeListMatch_spec (ds : DataStore) (tvdbId season episode : Nat)
    (al : AnimeListEntry)
    (h : findAnimeListMatchForTvdbSeason ds tvdbId season episode = some al) :
    alookup ds.animeListByTvdbId tvdbId = some [al]
    ∨ (al ∈ (alookup ds.animeListByTvdbId tvdbId).getD []
        ∧ alCandidateCond season episode al) := by
  unfold findAnimeListMatchForTvdbSeason at h
  cases hlk : alookup ds.animeListByTvdbId tvdbId with
  | none =>
      rw [hlk] at h
      exact absurd h (by simp)
  | some cs =>
      rw [hlk] at h
      rcases cs with _ | ⟨c1, _ | ⟨c2, tl⟩⟩
      · dsimp only at h
        exact absurd h (by simp)
      · dsimp only at h
        left
        obtain rfl : c1 = al := Option.some.inj h
        rfl
      · dsimp only at h
        right
        rcases foldl_alMatchStep_some season episode (c1 :: c2 :: tl) (none, -1) al h
          with hst | ⟨hmem, hcond⟩
        · exact absurd hst (by simp)
        · exact ⟨hmem, hcond⟩

theorem mem_animeListCandidates (ds : DataStore) (l : List MappingEntry)
    (season episode : Nat) (t : IdType) (v : IdValue) (cm : CandidateMatch)
    (h : cm ∈ animeListCandidates ds l season episode t v) :
    ∃ tvdbId al, natTruthy (queryTvdbId ds t v) = some tvdbId ∧
      findAnimeListMatchForTvdbSeason ds tvdbId season episode = some al ∧
      cm.mapping ∈ l ∧ cm.mapping.anidbId = some al.anidbId ∧
      cm.fromEpisode = al.episodeOffset.getD 0 + 1 ∧
      cm.animeListEntry = some al := by
  unfold animeListCandidates at h
  cases htv : natTruthy (queryTvdbId ds t v) with
  | none =>
      rw [htv] at h
      exact absurd h (by simp)
  | some tvdbId =>
      rw [htv] at h
      dsimp only at h
      cases hal : findAnimeListMatchForTvdbSeason ds tvdbId season episode with
      | none =>
          rw [hal] at h
          exact absurd h (by simp)
      | some alMatch =>
          rw [hal] at h
          dsimp only at h
          cases hfind : l.find? fun m => m.anidbId == some alMatch.anidbId with
          | none =>
              rw [hfind] at h
              exact absurd h (by simp)
          | some mm =>
              rw [hfind] at h
              dsimp only at h
              have hcm := List.mem_singleton.mp h
              have hmm := List.mem_of_find?_eq_some hfind
              have hprop := List.find?_some hfind
              refine ⟨tvdbId, alMatch, rfl, hal, ?_, ?_, ?_, ?_⟩
              · rw [hcm]; exact hmm
              · rw [hcm]; simpa using hprop
              · rw [hcm]
              · rw [hcm]

theorem foldl_max_mem (rest : List CandidateMatch) :
    ∀ c : CandidateMatch, rest.foldl (fun best current =>
        if best.fromEpisode < current.fromEpisode then current else best) c
      ∈ c :: rest := by
  induction rest with
  | nil =>
      intro c
      simp
  | cons d t ih =>
      intro c
      rw [List.foldl_cons]
      rcases List.mem_cons.mp (ih (if c.fromEpisode < d.fromEpisode then d else c))
        with heq | hmem
      · rw [heq]
        split
        · exact List.mem_cons_of_mem _ (List.mem_cons_self _ _)
        · exact List.mem_cons_self _ _
      · exact List.mem_cons_of_mem _ (List.mem_cons_of_mem _ hmem)

theorem foldl_max_ge (rest : List CandidateMatch) :
    ∀ c : CandidateMatch, ∀ x ∈ c :: rest, x.fromEpisode ≤
      (rest.foldl (fun best current =>
        if best.fromEpisode < current.fromEpisode then current else best)
        c).fromEpisode := by
  induction rest with
  | nil =>
      intro c x hx
      rw [List.mem_singleton.mp hx]
      exact Nat.le_refl _
  | cons d t ih =>
      intro c x hx
      rw [List.foldl_cons]
      have hcle : c.fromEpisode ≤
          (if c.fromEpisode < d.fromEpisode then d else c).fromEpisode := by
        split
        · rename_i hlt
          exact Nat.le_of_lt hlt
        · exact Nat.le_refl _
      have hdle : d.fromEpisode ≤
          (if c.fromEpisode < d.fromEpisode then d else c).fromEpisode := by
        split
        · exact Nat.le_refl _
        · rename_i hge
          omega
      have hhead := ih (if c.fromEpisode < d.fromEpisode then d else c) _
        (List.mem_cons_self _ _)
      rcases List.mem_cons.mp hx with rfl | hx2
      · exact Nat.le_trans hcle hhead
      · rcases List.mem_cons.mp hx2 with rfl | hx3
        · exact Nat.le_trans hdle hhead
        · exact ih _ _ (List.mem_cons_of_mem _ hx3)

/-- C5 (amended): the Kitsu side of the candidate set is exactly as the claim
states it; the AnimeList side adds at most the entry chosen by
`findAnimeListMatchForTvdbSeason`, which either is the sole entry under the
TVDB id — returned unconditionally, without any season or episode check — or
satisfies the season/episode condition (TVDB match or TMDB fallback); among a
non-empty candidate set the selected mapping is one carrying the highest
`fromEpisode`. -/
theorem c5_candidates_and_selection (ds : DataStore) (l : List MappingEntry)
    (season episode : Nat) (t : IdType) (v : IdValue) :
    (∀ cm, cm ∈ kitsuCandidates ds l season episode ↔
       ∃ me ∈ l, ∃ kid ke, natTruthy me.kitsuId = some kid ∧
         alookup ds.kitsuById kid = some ke ∧ ke.fromSeason = some season ∧
         ke.fromEpisode.getD 1 ≤ episode ∧
         cm = { mapping := me, fromEpisode := ke.fromEpisode.getD 1,
                source := .kitsu, animeListEntry := none })
    ∧ (∀ cm, cm ∈ animeListCandidates ds l season episode t v →
         ∃ tvdbId al, natTruthy (queryTvdbId ds t v) = some tvdbId ∧
           findAnimeListMatchForTvdbSeason ds tvdbId season episode = some al ∧
           cm.mapping ∈ l ∧ cm.mapping.anidbId = some al.anidbId ∧
           cm.fromEpisode = al.episodeOffset.getD 0 + 1 ∧
           cm.animeListEntry = some al)
    ∧ (∀ tvdbId al, findAnimeListMatchForTvdbSeason ds tvdbId season episode
          = some al →
         alookup ds.animeListByTvdbId tvdbId = some [al]
         ∨ (al ∈ (alookup ds.animeListByTvdbId tvdbId).getD []
             ∧ alCandidateCond season episode al))
    ∧ (∀ c rest, kitsuCandidates ds l season episode
          ++ animeListCandidates ds l season episode t v = c :: rest →
        (findBestMatchForSeasonEpisode ds l season episode t v).mappings
            = some (bestCandidate c rest).mapping
        ∧ (findBestMatchForSeasonEpisode ds l season episode t v).animeListEntry
            = (bestCandidate c rest).animeListEntry
        ∧ bestCandidate c rest ∈ c :: rest
        ∧ ∀ x ∈ c :: rest, x.fromEpisode ≤ (bestCandidate c rest).fromEpisode) := by
  refine ⟨mem_kitsuCandidates_iff ds l season episode,
    mem_animeListCandidates ds l season episode t v,
    fun tvdbId al => findAnimeListMatch_spec ds tvdbId season episode al,
    ?_⟩
  intro c rest hcand
  have hres : findBestMatchForSeasonEpisode ds l season episode t v =
      { mappings := some (bestCandidate c rest).mapping
        details := findManamiDetailsFromMapping ds (bestCandidate c rest).mapping
        animeListEntry := (bestCandidate c rest).animeListEntry } := by
    unfold findBestMatchForSeasonEpisode
    rw [hcand]
  refine ⟨by rw [hres], by rw [hres], ?_, ?_⟩
  · exact foldl_max_mem rest c
  · exact foldl_max_ge rest c

/- ## Claim C7: enrichment idempotence (amended) -/

theorem enrichSeasonStep_idem (p : ParsedId) (e : AnimeEntry) :
    enrichSeasonStep (enrichSeasonStep p e) e = enrichSeasonStep p e := by
  unfold enrichSeasonStep
  by_cases hp : (strTruthy p.season).isNone
  · rw [if_pos hp]
    split
    · rfl
    · rfl
  · rw [if_neg hp, if_neg hp]

theorem enrichSeasonStep_season (q : ParsedId) (e : AnimeEntry) :
    (enrichSeasonStep q e).season =
      if (strTruthy q.season).isNone then seasonFromEntry e else q.season := by
  unfold enrichSeasonStep
  by_cases hc : (strTruthy q.season).isNone
  · rw [if_pos hc, if_pos hc]
  · rw [if_neg hc, if_neg hc]

theorem enrichSeasonStep_episode (p : ParsedId) (e : AnimeEntry) :
    (enrichSeasonStep p e).episode = p.episode := by
  unfold enrichSeasonStep
  split
  · rfl
  · rfl

theorem enrichSeasonStep_type (p : ParsedId) (e : AnimeEntry) :
    (enrichSeasonStep p e).type = p.type := by
  unfold enrichSeasonStep
  split
  · rfl
  · rfl

theorem enrichEpisodeStep_season (p : ParsedId) (e : AnimeEntry) :
    (enrichEpisodeStep p e).season = p.season := by
  unfold enrichEpisodeStep
  split
  · split
    · split
      · rfl
      · rfl
    · rfl
  · rfl

theorem enrichEpisodeStep_of_no_rebase (p : ParsedId) (e : AnimeEntry)
    (h : (p.type ≠ .malId ∧ p.type ≠ .kitsuId) ∨ strTruthy p.episode = none
        ∨ natTruthy (jsNullish (e.imdb.bind ImdbBlock.fromEpisode)
            e.tvdb.fromEpisode) = none
        ∨ natTruthy (jsNullish (e.imdb.bind ImdbBlock.fromEpisode)
            e.tvdb.fromEpisode) = some 1) :
    enrichEpisodeStep p e = p := by
  unfold enrichEpisodeStep
  rcases h with ⟨h1, h2⟩ | h | h | h
  · rw [if_neg]
    simp [h1, h2]
  · rw [if_neg]
    simp [h]
  · rw [h]
    split
    · rfl
    · rfl
  · rw [h]
    split
    · simp
    · rfl

theorem enrich_season_eq (p : ParsedId) (e : AnimeEntry) :
    (enrichParsedIdWithAnimeEntry p e).season = (enrichSeasonStep p e).season := by
  unfold enrichParsedIdWithAnimeEntry
  exact enrichEpisodeStep_season _ e

theorem enrich_eq_seasonStep_of_no_rebase (p : ParsedId) (e : AnimeEntry)
    (h : (p.type ≠ .malId ∧ p.type ≠ .kitsuId) ∨ strTruthy p.episode = none
        ∨ natTruthy (jsNullish (e.imdb.bind ImdbBlock.fromEpisode)
            e.tvdb.fromEpisode) = none
        ∨ natTruthy (jsNullish (e.imdb.bind ImdbBlock.fromEpisode)
            e.tvdb.fromEpisode) = some 1) :
    enrichParsedIdWithAnimeEntry p e = enrichSeasonStep p e := by
  unfold enrichParsedIdWithAnimeEntry
  apply enrichEpisodeStep_of_no_rebase
  rw [enrichSeasonStep_episode, enrichSeasonStep_type]
  exact h

/-- C7 (amended): `enrichParsedIdWithAnimeEntry` is idempotent on the season
field, and fully idempotent whenever the episode rebase cannot apply — the id
type is not `malId`/`kitsuId`, the episode is falsy, or the effective
`fromEpisode` is absent, 0 or 1.  (When the rebase does apply, a second
application rebases the episode again, as the counterexample shows.) -/
theorem c7_enrich_idempotent_amended (p : ParsedId) (e : AnimeEntry) :
    (enrichParsedIdWithAnimeEntry (enrichParsedIdWithAnimeEntry p e) e).season
        = (enrichParsedIdWithAnimeEntry p e).season
    ∧ (((p.type ≠ .malId ∧ p.type ≠ .kitsuId) ∨ strTruthy p.episode = none
          ∨ natTruthy (jsNullish (e.imdb.bind ImdbBlock.fromEpisode)
              e.tvdb.fromEpisode) = none
          ∨ natTruthy (jsNullish (e.imdb.bind ImdbBlock.fromEpisode)
              e.tvdb.fromEpisode) = some 1) →
        enrichParsedIdWithAnimeEntry (enrichParsedIdWithAnimeEntry p e) e
          = enrichParsedIdWithAnimeEntry p e) := by
  constructor
  · rw [enrich_season_eq (enrichParsedIdWithAnimeEntry p e) e,
      enrichSeasonStep_season, enrich_season_eq p e, enrichSeasonStep_season]
    by_cases hc : (strTruthy p.season).isNone
    · rw [if_pos hc]
      split
      · rfl
      · rfl
    · rw [if_neg hc, if_neg hc]
  · intro h
    have hq : ((enrichParsedIdWithAnimeEntry p e).type ≠ .malId
          ∧ (enrichParsedIdWithAnimeEntry p e).type ≠ .kitsuId)
        ∨ strTruthy (enrichParsedIdWithAnimeEntry p e).episode = none
        ∨ natTruthy (jsNullish (e.imdb.bind ImdbBlock.fromEpisode)
            e.tvdb.fromEpisode) = none
        ∨ natTruthy (jsNullish (e.imdb.bind ImdbBlock.fromEpisode)
            e.tvdb.fromEpisode) = some 1 := by
      rw [enrich_eq_seasonStep_of_no_rebase p e h, enrichSeasonStep_episode,
        enrichSeasonStep_type]
      exact h
    rw [enrich_eq_seasonStep_of_no_rebase _ e hq,
      enrich_eq_seasonStep_of_no_rebase p e h, enrichSeasonStep_idem]

/- ## Claim C8: atomic index publication (amended) -/

theorem aset_ne_nil {α β : Type} [DecidableEq α] :
    ∀ (l : List (α × β)) (k : α) (v : β), aset l k v ≠ [] := by
  intro l k v
  match l with
  | [] => simp [aset]
  | (k0, v0) :: rest =>
      unfold aset
      split
      · simp
      · simp

theorem kitsuEnrichStep_kitsuById (kid : Nat) (imdb : String)
    (st : KitsuLoadStore) : (kitsuEnrichStep kid imdb st).kitsuById = st.kitsuById := by
  unfold kitsuEnrichStep
  cases hlk : alookup st.fribbByKitsuId kid with
  | none => rfl
  | some l =>
      dsimp only
      split
      · rfl
      · rfl

theorem kitsuEntryStep_ne_nil (st : KitsuLoadStore) (entry : Nat × KitsuEntry) :
    (kitsuEntryStep st entry).kitsuById ≠ [] := by
  unfold kitsuEntryStep
  cases him : strTruthy entry.2.imdbId with
  | none =>
      dsimp only
      exact aset_ne_nil st.kitsuById entry.1 entry.2
  | some imdb =>
      dsimp only
      rw [kitsuEnrichStep_kitsuById]
      exact aset_ne_nil st.kitsuById entry.1 entry.2

theorem foldl_kitsuEntryStep_ne_nil (l : List (Nat × KitsuEntry)) :
    ∀ st : KitsuLoadStore, l ≠ [] → (l.foldl kitsuEntryStep st).kitsuById ≠ [] := by
  induction l with
  | nil =>
      intro st h
      exact absurd rfl h
  | cons a t ih =>
      intro st _
      rw [List.foldl_cons]
      cases t with
      | nil => exact kitsuEntryStep_ne_nil st a
      | cons b u => exact ih (kitsuEntryStep st a) (by simp)

theorem trace_getLast (l : List (Nat × KitsuEntry)) :
    ∀ (hd b : KitsuLoadStore),
      (hd :: List.scanl kitsuEntryStep b l).getLast? = some (l.foldl kitsuEntryStep b) := by
  induction l with
  | nil =>
      intro hd b
      rfl
  | cons a t ih =>
      intro hd b
      rw [List.scanl]
      rw [List.getLast?_cons_cons]
      rw [ih b (kitsuEntryStep b a)]
      rw [List.foldl_cons]

/-- C8 (amended): `loadFribbMappings` builds its index maps locally and
publishes them in one assignment, so every published state a reader could see
is the initial or the final snapshot; `loadKitsuImdbMapping` instead resets
the published kitsu index to an empty map and repopulates it in place, so with
a previously non-empty index and at least one entry to load, an intermediate
published state differs from both snapshots. -/
theorem c8_fribb_atomic_kitsu_not (st0 : KitsuLoadStore)
    (entries : List MappingEntry) (kst : KitsuLoadStore)
    (kentries : List (Nat × KitsuEntry))
    (hk : kst.kitsuById ≠ []) (hke : kentries ≠ []) :
    snapshotAtomic (loadFribbMappingsTrace st0 entries)
    ∧ ¬ snapshotAtomic (loadKitsuImdbMappingTrace kst kentries) := by
  constructor
  · intro st hst
    unfold loadFribbMappingsTrace at hst ⊢
    rcases List.mem_cons.mp hst with rfl | h2
    · left
      rfl
    · rcases List.mem_cons.mp h2 with rfl | h3
      · right
        rfl
      · simp at h3
  · intro hatomic
    unfold loadKitsuImdbMappingTrace at hatomic
    have hmem : ({ kst with kitsuById := [] } : KitsuLoadStore) ∈
        kst :: List.scanl kitsuEntryStep { kst with kitsuById := [] } kentries := by
      cases kentries with
      | nil => simp [List.scanl]
      | cons a t =>
          rw [List.scanl]
          exact List.mem_cons_of_mem _ (List.mem_cons_self _ _)
    rcases hatomic _ hmem with hhead | hlast
    · have heq : ({ kst with kitsuById := [] } : KitsuLoadStore) = kst := by
        simpa using hhead
      have : kst.kitsuById = [] := (congrArg KitsuLoadStore.kitsuById heq).symm
      exact hk this
    · rw [trace_getLast] at hlast
      have heq := Option.some.inj hlast
      have hne := foldl_kitsuEntryStep_ne_nil kentries
        ({ kst with kitsuById := [] }) hke
      rw [← heq] at hne
      exact hne rfl

/- ## Counterexamples -/

/-- C5 counterexample: with a single AnimeList entry under the queried TVDB id
whose default TVDB season (5) does not match the requested season (2), the
claim's candidate set is empty, yet `findBestMatchForSeasonEpisode` selects
that entry's mapping and attaches the entry — the sole-candidate shortcut of
`findAnimeListMatchForTvdbSeason` skips the season and episode checks. -/
theorem c5_single_candidate_counterexample :
    claimCandidateMappings dsSingleAnimeList [mappingAnidb10, mappingAnidb1] 2 1
        IdType.thetvdbId (IdValue.num 100) = []
    ∧ (findBestMatchForSeasonEpisode dsSingleAnimeList
        [mappingAnidb10, mappingAnidb1] 2 1 IdType.thetvdbId
        (IdValue.num 100)).mappings = some mappingAnidb1
    ∧ (findBestMatchForSeasonEpisode dsSingleAnimeList
        [mappingAnidb10, mappingAnidb1] 2 1 IdType.thetvdbId
        (IdValue.num 100)).animeListEntry = some animeListSeason5
    ∧ tvdbSeasonMatch 2 animeListSeason5 = false := by
  decide

/-- C7 counterexample: a kitsu id with episode "5" against an entry with
`imdb.fromEpisode = 13` is rebased to "17" by one application and to "29" by a
second, so `enrichParsedIdWithAnimeEntry` is not idempotent. -/
theorem c7_not_idempotent_counterexample :
    enrichParsedIdWithAnimeEntry
        (enrichParsedIdWithAnimeEntry parsedKitsuS2E5 entryFromEpisode13)
        entryFromEpisode13
      ≠ enrichParsedIdWithAnimeEntry parsedKitsuS2E5 entryFromEpisode13 := by
  decide

/-- C8 counterexample: loading two kitsu entries over a previously non-empty
published kitsu index passes through the intermediate state with an empty
kitsu index, which is neither the old nor the new snapshot. -/
theorem c8_kitsu_load_counterexample :
    ¬ snapshotAtomic (loadKitsuImdbMappingTrace storeOneKitsu
        [(2, emptyKitsuEntry), (3, emptyKitsuEntry)]) := by
  decide

/- ## Witnesses -/

/-- Witness for C1 at the spec's SeaDex tagging scenario. -/
theorem c1_seadex_hash_priority_witness :
    List.Forall₂ (fun s t =>
        (∀ h, truthyInfoHash s = some h →
            seadexScenario.allHashes.contains h = true →
            t.seadex = some { isBest := seadexScenario.bestHashes.contains h,
                              isSeadex := true })
        ∧ ([streamS1, streamS2].any (hashMatches seadexScenario) = true →
            hashMatches seadexScenario s = false → t.seadex = s.seadex))
      [streamS1, streamS2]
      (precomputeSeaDexFromResult [streamS1, streamS2] seadexScenario) :=
  c1_seadex_hash_priority [streamS1, streamS2] seadexScenario (by decide)

/-- Witness for C2 at the spec's first-match-wins scenario. -/
theorem c2_preferred_lowest_claim_witness :
    List.Forall₂ (fun s t => t.streamExpressionMatched
          = lowestMatchIdx [exprIsT1, exprAll] s)
        [streamT1, streamT2]
        (precomputeStreamExpressionMatches [exprIsT1, exprAll] [streamT1, streamT2])
    ∧ List.Forall₂ (fun s t => ∀ i, lowestMatchIdx [exprIsT1, exprAll] s = some i →
          t.streamExpressionMatched = some i)
        [streamT1, streamT2]
        (precomputeStreamExpressionMatches ([exprIsT1, exprAll] ++ [exprIsT1])
          [streamT1, streamT2]) :=
  c2_preferred_lowest_claim [exprIsT1, exprAll] exprIsT1 [streamT1, streamT2]
    (by decide) (by decide)

/-- Witness for C3 at the spec's additive-scoring scenario. -/
theorem c3_ranked_scores_additive_witness :
    List.Forall₂ (fun s t => t.streamExpressionScore =
        if anyEntryMatches [(exprIs1080, 10), (exprIsCached, 5)] s then
          some (matchedScoreSum [(exprIs1080, 10), (exprIsCached, 5)] s)
        else none)
      [streamT1, streamT2, streamT3]
      (precomputeRankedStreamExpressions [(exprIs1080, 10), (exprIsCached, 5)]
        [streamT1, streamT2, streamT3]) :=
  c3_ranked_scores_additive [(exprIs1080, 10), (exprIsCached, 5)]
    [streamT1, streamT2, streamT3] (by decide) (by decide)

/-- Witness for C4 on a list containing every relevant type, at season 0. -/
theorem c4_season_type_filter_witness :
    filterMappingsBySeasonType [mappingUnknown, mappingMovie, mappingTv, mappingOva]
        (some 0) =
      if ([mappingUnknown, mappingMovie, mappingTv, mappingOva].filter
            (seasonTypeKeepSpec (some 0))).isEmpty
      then [mappingUnknown, mappingMovie, mappingTv, mappingOva]
      else [mappingUnknown, mappingMovie, mappingTv, mappingOva].filter
        (seasonTypeKeepSpec (some 0)) :=
  c4_season_type_filter [mappingUnknown, mappingMovie, mappingTv, mappingOva]
    (some 0) (by decide)

/-- Witness for C5 at the spec's season-resolution scenario (kitsu:7936,
S2E5): the sole candidate is the `fromSeason = 2` mapping and it is selected. -/
theorem c5_candidates_and_selection_witness :
    (findBestMatchForSeasonEpisode dsSeason2 [mappingKitsu7936, mappingKitsu11111]
        2 5 IdType.kitsuId (IdValue.num 7936)).mappings = some mappingKitsu11111 := by
  have h := (c5_candidates_and_selection dsSeason2
      [mappingKitsu7936, mappingKitsu11111] 2 5 IdType.kitsuId
      (IdValue.num 7936)).2.2.2 candidate11111 [] (by decide)
  exact h.1

/-- Witness for C7 (amended) at a non-kitsu/mal id: two applications agree. -/
theorem c7_enrich_idempotent_witness :
    enrichParsedIdWithAnimeEntry
        (enrichParsedIdWithAnimeEntry parsedImdbS2E5 entryFromEpisode13)
        entryFromEpisode13
      = enrichParsedIdWithAnimeEntry parsedImdbS2E5 entryFromEpisode13 :=
  (c7_enrich_idempotent_amended parsedImdbS2E5 entryFromEpisode13).2
    (Or.inl (by decide))

/-- Witness for C8 (amended) on concrete stores: the fribb load trace is
atomic, the kitsu load trace is not. -/
theorem c8_fribb_atomic_kitsu_not_witness :
    snapshotAtomic (loadFribbMappingsTrace storeOneKitsu [])
    ∧ ¬ snapshotAtomic (loadKitsuImdbMappingTrace storeOneKitsu
        [(2, emptyKitsuEntry)]) :=
  c8_fribb_atomic_kitsu_not storeOneKitsu [] storeOneKitsu
    [(2, emptyKitsuEntry)] (by decide) (by decide)

/-- Witness for C9 at `kitsu:123` with a database resolving nothing. -/
theorem c9_kitsu_prefix_isAnime_witness :
    (StreamContext.create parseAlwaysKitsu dbIsAnimeNever dbGetEntryNone
        "series" "kitsu:123").isAnime = true
    ∧ (StreamContext.create parseAlwaysKitsu dbIsAnimeNever dbGetEntryNone
        "series" "kitsu:123").queryType = "anime." ++ "series"
    ∧ (StreamContext.create parseAlwaysKitsu dbIsAnimeNever dbGetEntryNone
        "series" "kitsu:123").animeEntry = none := by
  have h := c9_kitsu_prefix_isAnime parseAlwaysKitsu dbIsAnimeNever dbGetEntryNone
    "series" "kitsu:123" (by decide)
  exact ⟨h.1, h.2.1, h.2.2 (fun _ _ _ _ => rfl)⟩

/-- Witness for C10 with an unset `enableSeadex` and a valid AniList id. -/
theorem c10_enableSeadex_unset_witness :
    startSeaDexFetchStarts false false true none (some (IdValue.num 5)) = true
    ∧ (∀ es : Option Bool, es ≠ some true →
        precomputeSeaDexOnly true es (some seadexScenario) [streamS1, streamS2]
          = [streamS1, streamS2]) :=
  c10_enableSeadex_unset false false true (some (IdValue.num 5)) (IdValue.num 5) 5
    (some seadexScenario) [streamS1, streamS2] rfl rfl rfl (by decide) (by decide)
